import Mathlib

set_option maxRecDepth 100000

/-!
Verification of the chainswarm analytics-pipeline engine against its
specification.  The Python source is shallowly embedded: pure functions become
Lean functions over `ℚ` (modelling Python floats / decimals by exact rational
arithmetic), `String` (addresses) and `List`.  Library calls (hashlib, uuid,
networkx enumerations) are modelled by executable Lean implementations of their
documented behaviour.
-/

namespace Chainswarm

/-! ## Byte-level primitives: UTF-8, SHA-256, SHA-1, UUIDv5

`hashlib.sha256(...).hexdigest()` and `uuid.uuid5(uuid.NAMESPACE_DNS, ...)`
are modelled bit-exactly.  Bytes and 32-bit words are `Nat` reduced mod 2^8 /
2^32. -/

/-- Truncate to a 32-bit word. -/
def w32 (x : Nat) : Nat := x % 4294967296

/-- 32-bit right rotation. -/
def rotr32 (n x : Nat) : Nat := w32 ((x >>> n) ||| (x <<< (32 - n)))

/-- 32-bit left rotation. -/
def rotl32 (n x : Nat) : Nat := w32 ((x <<< n) ||| (x >>> (32 - n)))

/-- 32-bit bitwise complement. -/
def not32 (x : Nat) : Nat := x ^^^ 4294967295

/-- UTF-8 encoding of a single character (as Python `str.encode()`). -/
def utf8Char (c : Char) : List Nat :=
  let n := c.toNat
  if n < 128 then [n]
  else if n < 2048 then [192 ||| (n >>> 6), 128 ||| (n &&& 63)]
  else if n < 65536 then
    [224 ||| (n >>> 12), 128 ||| ((n >>> 6) &&& 63), 128 ||| (n &&& 63)]
  else
    [240 ||| (n >>> 18), 128 ||| ((n >>> 12) &&& 63),
     128 ||| ((n >>> 6) &&& 63), 128 ||| (n &&& 63)]

/-- UTF-8 encoding of a string, as the byte list Python's `str.encode()` yields. -/
def utf8Encode (s : String) : List Nat := s.data.flatMap utf8Char

/-- Big-endian 8-byte encoding of a length (for SHA padding). -/
def toBE64 (n : Nat) : List Nat :=
  (List.range 8).map (fun i => (n >>> (8 * (7 - i))) % 256)

/-- Combine bytes (big-endian) into 32-bit words. -/
def bytesToWords : List Nat → List Nat
  | b0 :: b1 :: b2 :: b3 :: rest =>
      ((b0 <<< 24) ||| (b1 <<< 16) ||| (b2 <<< 8) ||| b3) :: bytesToWords rest
  | _ => []

/-- Split a word list into blocks of 16 words; `k` is the number of blocks. -/
def chunkBlocks : Nat → List Nat → List (List Nat)
  | 0, _ => []
  | k + 1, ws => ws.take 16 :: chunkBlocks k (ws.drop 16)

/-- Merkle–Damgård padding shared by SHA-1 and SHA-256. -/
def shaPad (msg : List Nat) : List Nat :=
  let r := (msg.length + 1) % 64
  msg ++ [128] ++ List.replicate ((56 + 64 - r) % 64) 0 ++ toBE64 (8 * msg.length)

/-- SHA-256 round constants (decimal, FIPS 180-4 §4.2.2). -/
def sha256K : List Nat :=
  [1116352408, 1899447441, 3049323471, 3921009573, 961987163, 1508970993,
   2453635748, 2870763221, 3624381080, 310598401, 607225278, 1426881987,
   1925078388, 2162078206, 2614888103, 3248222580, 3835390401, 4022224774,
   264347078, 604807628, 770255983, 1249150122, 1555081692, 1996064986,
   2554220882, 2821834349, 2952996808, 3210313671, 3336571891, 3584528711,
   113926993, 338241895, 666307205, 773529912, 1294757372, 1396182291,
   1695183700, 1986661051, 2177026350, 2456956037, 2730485921, 2820302411,
   3259730800, 3345764771, 3516065817, 3600352804, 4094571909, 275423344,
   430227734, 506948616, 659060556, 883997877, 958139571, 1322822218,
   1537002063, 1747873779, 1955562222, 2024104815, 2227730452, 2361852424,
   2428436474, 2756734187, 3204031479, 3329325298]

/-- SHA-256 initial hash state (decimal, FIPS 180-4 §5.3.3). -/
def sha256H0 : List Nat :=
  [1779033703, 3144134277, 1013904242, 2773480762,
   1359893119, 2600822924, 528734635, 1541459225]

/-- Extend a 16-word block to the 64-word SHA-256 message schedule. -/
def sha256Schedule (block : List Nat) : List Nat :=
  (List.range 48).foldl
    (fun acc _ =>
      let n := acc.length
      let x15 := acc.getD (n - 15) 0
      let x2 := acc.getD (n - 2) 0
      let s0 := (rotr32 7 x15) ^^^ (rotr32 18 x15) ^^^ (x15 >>> 3)
      let s1 := (rotr32 17 x2) ^^^ (rotr32 19 x2) ^^^ (x2 >>> 10)
      acc ++ [w32 (acc.getD (n - 16) 0 + s0 + acc.getD (n - 7) 0 + s1)])
    block

/-- One SHA-256 compression round. -/
def sha256Step (st : List Nat) (k w : Nat) : List Nat :=
  let a := st.getD 0 0
  let b := st.getD 1 0
  let c := st.getD 2 0
  let d := st.getD 3 0
  let e := st.getD 4 0
  let f := st.getD 5 0
  let g := st.getD 6 0
  let h := st.getD 7 0
  let s1 := (rotr32 6 e) ^^^ (rotr32 11 e) ^^^ (rotr32 25 e)
  let ch := (e &&& f) ^^^ ((not32 e) &&& g)
  let t1 := w32 (h + s1 + ch + k + w)
  let s0 := (rotr32 2 a) ^^^ (rotr32 13 a) ^^^ (rotr32 22 a)
  let maj := (a &&& b) ^^^ (a &&& c) ^^^ (b &&& c)
  let t2 := w32 (s0 + maj)
  [w32 (t1 + t2), a, b, c, w32 (d + t1), e, f, g]

/-- SHA-256 compression of one block into the running state. -/
def sha256Compress (st : List Nat) (block : List Nat) : List Nat :=
  let ws := sha256Schedule block
  let fin := (List.range 64).foldl
    (fun acc i => sha256Step acc (sha256K.getD i 0) (ws.getD i 0)) st
  List.zipWith (fun a b => w32 (a + b)) st fin

/-- SHA-256 digest of a byte list, as a 32-byte list. -/
def sha256Bytes (msg : List Nat) : List Nat :=
  let ws := bytesToWords (shaPad msg)
  let blocks := chunkBlocks (ws.length / 16) ws
  let dw := blocks.foldl sha256Compress sha256H0
  dw.flatMap (fun w => [(w >>> 24) % 256, (w >>> 16) % 256, (w >>> 8) % 256, w % 256])

/-- Lowercase hex character. -/
def hexChar (n : Nat) : Char := ("0123456789abcdef".data).getD n '0'

/-- Lowercase hex string of a byte list (Python `hexdigest`). -/
def bytesToHex (bs : List Nat) : String :=
  String.mk (bs.flatMap (fun b => [hexChar (b / 16), hexChar (b % 16)]))

/-- `hashlib.sha256(s.encode()).hexdigest()`. -/
def sha256Hex (s : String) : String := bytesToHex (sha256Bytes (utf8Encode s))

/-- SHA-1 initial state. -/
def sha1H0 : List Nat := [0x67452301, 0xefcdab89, 0x98badcfe, 0x10325476, 0xc3d2e1f0]

/-- Extend a 16-word block to the 80-word SHA-1 schedule. -/
def sha1Schedule (block : List Nat) : List Nat :=
  (List.range 64).foldl
    (fun acc _ =>
      let n := acc.length
      acc ++ [rotl32 1 ((acc.getD (n - 3) 0) ^^^ (acc.getD (n - 8) 0) ^^^
                        (acc.getD (n - 14) 0) ^^^ (acc.getD (n - 16) 0))])
    block

/-- One SHA-1 round. -/
def sha1Step (st : List Nat) (i w : Nat) : List Nat :=
  let a := st.getD 0 0
  let b := st.getD 1 0
  let c := st.getD 2 0
  let d := st.getD 3 0
  let e := st.getD 4 0
  let f :=
    if i < 20 then (b &&& c) ||| ((not32 b) &&& d)
    else if i < 40 then b ^^^ c ^^^ d
    else if i < 60 then (b &&& c) ||| (b &&& d) ||| (c &&& d)
    else b ^^^ c ^^^ d
  let k :=
    if i < 20 then 0x5a827999
    else if i < 40 then 0x6ed9eba1
    else if i < 60 then 0x8f1bbcdc
    else 0xca62c1d6
  [w32 (rotl32 5 a + f + e + k + w), a, rotl32 30 b, c, d]

/-- SHA-1 compression of one block. -/
def sha1Compress (st : List Nat) (block : List Nat) : List Nat :=
  let ws := sha1Schedule block
  let fin := (List.range 80).foldl (fun acc i => sha1Step acc i (ws.getD i 0)) st
  List.zipWith (fun a b => w32 (a + b)) st fin

/-- SHA-1 digest of a byte list, as a 20-byte list. -/
def sha1Bytes (msg : List Nat) : List Nat :=
  let ws := bytesToWords (shaPad msg)
  let blocks := chunkBlocks (ws.length / 16) ws
  let dw := blocks.foldl sha1Compress sha1H0
  dw.flatMap (fun w => [(w >>> 24) % 256, (w >>> 16) % 256, (w >>> 8) % 256, w % 256])

/-- The bytes of `uuid.NAMESPACE_DNS`. -/
def namespaceDNS : List Nat :=
  [0x6b, 0xa7, 0xb8, 0x10, 0x9d, 0xad, 0x11, 0xd1,
   0x80, 0xb4, 0x00, 0xc0, 0x4f, 0xd4, 0x30, 0xc8]

/-- `str(uuid.uuid5(ns, name))`: SHA-1 of namespace bytes ++ UTF-8 name, with
version 5 and RFC 4122 variant bits, hyphenated 8-4-4-4-12. -/
def uuid5 (ns : List Nat) (name : String) : String :=
  let d := (sha1Bytes (ns ++ utf8Encode name)).take 16
  let d := d.take 6 ++ [((d.getD 6 0) &&& 15) ||| 80] ++ [d.getD 7 0] ++
           [((d.getD 8 0) &&& 63) ||| 128] ++ d.drop 9
  bytesToHex (d.take 4) ++ "-" ++ bytesToHex ((d.drop 4).take 2) ++ "-" ++
  bytesToHex ((d.drop 6).take 2) ++ "-" ++ bytesToHex ((d.drop 8).take 2) ++ "-" ++
  bytesToHex (d.drop 10)

/-- Known-answer check: SHA-256 of "abc". -/
theorem sha256Hex_abc :
    sha256Hex "abc" =
      "ba7816bf8f01cfea414140de5dae2223b00361a396177a9cb410ff61f20015ad" := by
  decide

/-- Known-answer check: SHA-1 of "abc" (through the UUID byte pipeline). -/
theorem sha1Bytes_abc :
    bytesToHex (sha1Bytes (utf8Encode "abc")) =
      "a9993e364706816aba3e25717850c26c9cd0d89d" := by
  decide

/-- Known-answer check: `uuid.uuid5(uuid.NAMESPACE_DNS, "python.org")`. -/
theorem uuid5_python_org :
    uuid5 namespaceDNS "python.org" = "886313e1-3b8a-5372-9b90-0c9aee199e5d" := by
  decide

/-! ## `packages/utils/pattern_utils.py` -/

/-- Strict lexicographic order on code-point lists (Python string `<`). -/
def charListLt : List Char → List Char → Bool
  | [], [] => false
  | [], _ :: _ => true
  | _ :: _, [] => false
  | c :: cs, d :: ds =>
      if c.toNat < d.toNat then true
      else if d.toNat < c.toNat then false
      else charListLt cs ds

/-- Python string `≤` as a computable comparison on code points. -/
def strLeB (a b : String) : Bool := ¬ charListLt b.data a.data

/-- Python `sorted` on strings: ascending lexicographic order on code points
(insertion sort produces the same list as any stable ascending sort, and the
sort key is the whole value, so ties are identical strings). -/
def pySorted (xs : List String) : List String :=
  xs.insertionSort (fun a b => strLeB a b = true)

/-- `generate_pattern_hash`: first 16 hex characters of the SHA-256 of
`pattern_type ++ ":" ++ ",".join(sorted(addresses))`. -/
def generate_pattern_hash (pattern_type : String) (addresses : List String) : String :=
  (sha256Hex (pattern_type ++ ":" ++ String.intercalate "," (pySorted addresses))).take 16

/-- `generate_pattern_id`: `pattern_type ++ "_" ++ pattern_hash`. -/
def generate_pattern_id (pattern_type pattern_hash : String) : String :=
  pattern_type ++ "_" ++ pattern_hash

/-! ## Flows and the graph builder
(`AddressFeatureAnalyzer._build_graph_from_flows_data` and friends). -/

/-- One windowed flow row, keyed by the ordered pair `(from_address, to_address)`. -/
structure Flow where
  from_address : String
  to_address : String
  amount_usd_sum : ℚ
  tx_count : ℕ
deriving DecidableEq, Repr

/-- Edge attributes as set by `G.add_edge(from, to, weight=…, tx_count=…,
amount_usd_sum=…)`; structural-detector test graphs may additionally carry a
`timestamps` attribute (used only by the burst detector). -/
structure GraphEdge where
  src : String
  dst : String
  weight : ℚ
  tx_count : ℕ
  amount_usd_sum : ℚ
  timestamps : Option (List ℕ) := none
deriving DecidableEq, Repr

/-- `networkx.DiGraph` restricted to what the analyzers use: the ordered list
of edges, at most one per ordered `(src, dst)` pair (later `add_edge` calls on
the same pair overwrite the attributes in place). -/
structure DiGraph where
  edges : List GraphEdge
deriving DecidableEq, Repr

/-- Deduplicate keeping the first occurrence (Python dict/set insertion order). -/
def dedupFirstAux {α} [DecidableEq α] : List α → List α → List α
  | [], _ => []
  | x :: xs, seen =>
      if x ∈ seen then dedupFirstAux xs seen else x :: dedupFirstAux xs (x :: seen)

/-- Deduplicate a list keeping first occurrences. -/
def dedupKeepFirst {α} [DecidableEq α] (l : List α) : List α := dedupFirstAux l []

/-- Nodes of the graph in networkx insertion order (each `add_edge(u,v)` adds
`u` then `v` if not yet present). -/
def DiGraph.nodes (g : DiGraph) : List String :=
  dedupKeepFirst (g.edges.flatMap (fun e => [e.src, e.dst]))

/-- `G.add_edge`: overwrite the attributes if the ordered pair is present,
otherwise append a new edge. -/
def DiGraph.addEdge (g : DiGraph) (e : GraphEdge) : DiGraph :=
  if g.edges.any (fun e' => e'.src = e.src && e'.dst = e.dst) then
    ⟨g.edges.map (fun e' => if e'.src = e.src && e'.dst = e.dst then e else e')⟩
  else ⟨g.edges ++ [e]⟩

/-- Look up the edge for an ordered pair. -/
def DiGraph.findEdge (g : DiGraph) (u v : String) : Option GraphEdge :=
  g.edges.find? (fun e => e.src = u && e.dst = v)

/-- The edge a flow row is inserted as. -/
def flowToEdge (f : Flow) : GraphEdge :=
  { src := f.from_address, dst := f.to_address, weight := f.amount_usd_sum,
    tx_count := f.tx_count, amount_usd_sum := f.amount_usd_sum, timestamps := none }

/-- `AddressFeatureAnalyzer._build_graph_from_flows_data`: one `add_edge` per
flow row into an initially empty `nx.DiGraph`. -/
def build_graph_from_flows_data (flows : List Flow) : DiGraph :=
  flows.foldl (fun g f => g.addEdge (flowToEdge f)) ⟨[]⟩

/-- Error kind named by the spec for a duplicated ordered pair. -/
inductive BuildError
  | DuplicateFlow
deriving DecidableEq, Repr

/-- Refinement model following the spec's words (§4.2): "Each flow yields
exactly one edge; multi-edges are forbidden — if the same ordered pair appears
twice in the input the builder fails loudly (`DuplicateFlow`)."  Used only to
compare the spec's claimed behaviour with `build_graph_from_flows_data`. -/
def build_graph_spec (flows : List Flow) : Except BuildError DiGraph :=
  if (flows.map (fun f => (f.from_address, f.to_address))).Nodup then
    Except.ok (build_graph_from_flows_data flows)
  else Except.error BuildError.DuplicateFlow

/-- `AddressFeatureAnalyzer._extract_addresses_from_flows`: sorted set of all
flow endpoints. -/
def extract_addresses_from_flows (flows : List Flow) : List String :=
  pySorted (dedupKeepFirst (flows.flatMap (fun f => [f.from_address, f.to_address])))

/-- The flow dictionary an edge is re-exported as by the flow index. -/
def edgeToFlow (e : GraphEdge) : Flow :=
  { from_address := e.src, to_address := e.dst,
    amount_usd_sum := e.amount_usd_sum, tx_count := e.tx_count }

/-- `AddressFeatureAnalyzer._build_flows_index_from_graph`, as the per-address
lookup: each edge is appended to the lists of both its endpoints (twice for a
self-loop). -/
def build_flows_index_from_graph (g : DiGraph) (a : String) : List Flow :=
  g.edges.flatMap (fun e =>
    (if e.src = a then [edgeToFlow e] else []) ++
    (if e.dst = a then [edgeToFlow e] else []))

/-! ## Feature builder numerics
(`AddressFeatureAnalyzer._calculate_gini_coefficient`,
`_compute_flow_features_cached`, `_get_base_features_cached`). -/

/-- Ascending sort of rationals (`sorted` on floats). -/
def sortQ (xs : List ℚ) : List ℚ := xs.insertionSort (fun a b => a ≤ b)

/-- `sum((i + 1) * v for i, v in enumerate(values))` where `i` starts at the
given index. -/
def giniWeightedSum : ℕ → List ℚ → ℚ
  | _, [] => 0
  | i, v :: vs => ((i + 1 : ℕ) : ℚ) * v + giniWeightedSum (i + 1) vs

/-- `AddressFeatureAnalyzer._calculate_gini_coefficient`, line for line:
empty list → 0; keep strictly positive entries, sort ascending; at most a
single entry → 0; otherwise `1 - 2·Σ (i+1)·vᵢ / (n·Σ v)`. -/
def calculate_gini_coefficient (values : List ℚ) : ℚ :=
  if values = [] then 0
  else
    let vs := sortQ (values.filter (fun v => 0 < v))
    let n := vs.length
    if n ≤ 1 then 0
    else 1 - (2 * giniWeightedSum 0 vs) / ((n : ℚ) * vs.sum)

/-- The fields of `_get_base_features_cached` embedded here (the volume,
count, degree and ratio fields; the numpy median/temporal statistics merged in
from `_compute_temporal_features_from_aggregates` are separate floats that no
claim touches and are not modelled). -/
structure BaseFeatures where
  address : String
  degree_in : ℕ
  degree_out : ℕ
  degree_total : ℕ
  unique_counterparties : ℕ
  total_in_usd : ℚ
  total_out_usd : ℚ
  net_flow_usd : ℚ
  total_volume_usd : ℚ
  avg_tx_in_usd : ℚ
  avg_tx_out_usd : ℚ
  max_tx_usd : ℚ
  min_tx_usd : ℚ
  tx_in_count : ℕ
  tx_out_count : ℕ
  tx_total_count : ℕ
  reciprocity_ratio : ℚ
  velocity_score : ℚ
  unique_recipients_count : ℕ
  unique_senders_count : ℕ
deriving DecidableEq, Repr

/-- Maximum of a rational list, 0 when empty (`max(xs)` guarded by emptiness). -/
def listMaxQ : List ℚ → ℚ
  | [] => 0
  | x :: xs => xs.foldl max x

/-- Minimum of a rational list, 0 when empty. -/
def listMinQ : List ℚ → ℚ
  | [] => 0
  | x :: xs => xs.foldl min x

/-- `AddressFeatureAnalyzer._get_base_features_cached` (volume/degree/ratio
fields).  `total_in/total_out` sum `amount_usd_sum` over the incoming and
outgoing flow slices; `total_volume_usd` is their sum; degree and counterparty
counts come from the sender/recipient sets. -/
def get_base_features_cached (address : String) (flows : List Flow) : BaseFeatures :=
  let inflows := flows.filter (fun f => f.to_address = address)
  let outflows := flows.filter (fun f => f.from_address = address)
  let total_in : ℚ := (inflows.map (fun f => f.amount_usd_sum)).sum
  let total_out : ℚ := (outflows.map (fun f => f.amount_usd_sum)).sum
  let tx_in : ℕ := (inflows.map (fun f => f.tx_count)).sum
  let tx_out : ℕ := (outflows.map (fun f => f.tx_count)).sum
  let recipients := dedupKeepFirst (outflows.map (fun f => f.to_address))
  let senders := dedupKeepFirst (inflows.map (fun f => f.from_address))
  let counterparties := dedupKeepFirst (senders ++ recipients)
  let total_vol := total_in + total_out
  let tx_total := tx_in + tx_out
  let all_amounts := (inflows.map (fun f => f.amount_usd_sum)) ++
    (outflows.map (fun f => f.amount_usd_sum))
  { address := address
    degree_in := tx_in
    degree_out := tx_out
    degree_total := counterparties.length
    unique_counterparties := counterparties.length
    total_in_usd := total_in
    total_out_usd := total_out
    net_flow_usd := total_in - total_out
    total_volume_usd := total_vol
    avg_tx_in_usd := total_in / (max tx_in 1 : ℕ)
    avg_tx_out_usd := total_out / (max tx_out 1 : ℕ)
    max_tx_usd := listMaxQ all_amounts
    min_tx_usd := listMinQ all_amounts
    tx_in_count := tx_in
    tx_out_count := tx_out
    tx_total_count := tx_total
    reciprocity_ratio := min total_in total_out / max total_vol 1
    velocity_score := min ((tx_total : ℚ) / 100) 1
    unique_recipients_count := recipients.length
    unique_senders_count := senders.length }

/-- The flow-structure fields of `_compute_flow_features_cached` that use the
Gini coefficient (`flow_diversity`, which divides a Shannon entropy by a
natural logarithm, is irrational-valued and not modelled). -/
structure FlowFeatures where
  flow_concentration : ℚ
  counterparty_concentration : ℚ
  concentration_ratio : ℚ
deriving DecidableEq, Repr

/-- `AddressFeatureAnalyzer._compute_flow_features_cached` (Gini fields):
`flow_concentration` is the Gini of all incident flow amounts, and
`counterparty_concentration` the Gini of per-counterparty volume totals. -/
def compute_flow_features_cached (address : String) (flows : List Flow) : FlowFeatures :=
  if flows = [] then
    { flow_concentration := 0, counterparty_concentration := 0, concentration_ratio := 0 }
  else
    let flow_amounts := flows.map (fun f => f.amount_usd_sum)
    let total_volume := flow_amounts.sum
    let cpOf : Flow → String := fun f =>
      if f.to_address = address then f.from_address else f.to_address
    let cps := dedupKeepFirst (flows.map cpOf)
    let cp_volumes := cps.map (fun c =>
      ((flows.filter (fun f => cpOf f = c)).map (fun f => f.amount_usd_sum)).sum)
    { flow_concentration := calculate_gini_coefficient flow_amounts
      counterparty_concentration := calculate_gini_coefficient cp_volumes
      concentration_ratio :=
        if 0 < total_volume then listMaxQ cp_volumes / total_volume else 0 }

/-! ## `BasePatternDetector`: labels, trust and severity adjustment -/

/-- An address-label cache entry (`trust_level` / `address_type`, both
optional, as the Python dict's `.get`). -/
structure LabelInfo where
  trust_level : Option String := none
  address_type : Option String := none
deriving DecidableEq, Repr

/-- The address-label cache. -/
abbrev LabelsCache := List (String × LabelInfo)

/-- Look up an address's label. -/
def lookupLabel (labels : LabelsCache) (a : String) : Option LabelInfo :=
  (labels.find? (fun p => p.1 = a)).map (fun p => p.2)

/-- `BasePatternDetector._is_trusted_address`. -/
def is_trusted_address (labels : LabelsCache) (a : String) : Bool :=
  match lookupLabel labels a with
  | none => false
  | some li =>
      (li.trust_level = some "verified" || li.trust_level = some "official") &&
      (li.address_type = some "exchange" || li.address_type = some "institutional" ||
       li.address_type = some "staking" || li.address_type = some "validator")

/-- `BasePatternDetector._is_fraudulent_address`. -/
def is_fraudulent_address (labels : LabelsCache) (a : String) : Bool :=
  match lookupLabel labels a with
  | none => false
  | some li =>
      (li.address_type = some "mixer" || li.address_type = some "scam" ||
       li.address_type = some "dark_market" || li.address_type = some "sanctioned") ||
      li.trust_level = some "blacklisted"

/-- The `severity_adjustments` configuration section. -/
structure SeverityConfig where
  trust_reduction_factor : ℚ
  fraud_increase_factor : ℚ
deriving DecidableEq, Repr

/-- `BasePatternDetector._adjust_severity_for_trust`: multiply the base
severity by `(1 - trust_reduction_factor·trusted/n)` when any participant is
trusted, then by `(1 + fraud_increase_factor·fraudulent/n)` when any is
fraudulent, and clip at 1. -/
def adjust_severity_for_trust (cfg : SeverityConfig) (labels : LabelsCache)
    (base_severity : ℚ) (participants : List String) : ℚ :=
  if participants = [] then base_severity
  else
    let n : ℚ := participants.length
    let trusted : ℕ := participants.countP (fun a => is_trusted_address labels a)
    let fraudulent : ℕ := participants.countP (fun a => is_fraudulent_address labels a)
    let adjusted := base_severity
    let adjusted :=
      if 0 < trusted then adjusted * (1 - cfg.trust_reduction_factor * trusted / n)
      else adjusted
    let adjusted :=
      if 0 < fraudulent then adjusted * (1 + cfg.fraud_increase_factor * fraudulent / n)
      else adjusted
    min adjusted 1

/-! ## Graph algorithms used by the detectors
(models of the networkx library calls). -/

/-- Directed out-neighbours. -/
def neighborsOut (g : DiGraph) (v : String) : List String :=
  (g.edges.filter (fun e => e.src = v)).map (fun e => e.dst)

/-- One closure step of directed reachability. -/
def expandOnce (g : DiGraph) (acc : List String) : List String :=
  dedupKeepFirst (acc ++ acc.flatMap (neighborsOut g))

/-- All nodes reachable from `v` (iterating one step per node saturates). -/
def reachFrom (g : DiGraph) (v : String) : List String :=
  (expandOnce g)^[g.nodes.length] [v]

/-- Mutual reachability (same strongly connected component). -/
def sameSCC (g : DiGraph) (u v : String) : Bool :=
  (v ∈ reachFrom g u) && (u ∈ reachFrom g v)

/-- `nx.strongly_connected_components`: components listed by first
representative in node order, members in node order. -/
def strongly_connected_components (g : DiGraph) : List (List String) :=
  let ns := g.nodes
  ns.foldl
    (fun acc v =>
      if acc.any (fun c => v ∈ c) then acc
      else acc ++ [ns.filter (fun u => sameSCC g v u)])
    []

/-- Edges of the induced subgraph on a node set. -/
def subgraphEdges (g : DiGraph) (s : List String) : List GraphEdge :=
  g.edges.filter (fun e => e.src ∈ s && e.dst ∈ s)

/-- `nx.density` for a directed graph: `m / (n·(n-1))`, 0 when `n ≤ 1`. -/
def densityDirected (n m : ℕ) : ℚ :=
  if n ≤ 1 then 0 else (m : ℚ) / ((n : ℚ) * ((n : ℚ) - 1))

/-- Undirected neighbours (of `G.to_undirected()`). -/
def undirectedAdj (g : DiGraph) (v : String) : List String :=
  dedupKeepFirst
    (((g.edges.filter (fun e => e.src = v)).map (fun e => e.dst)) ++
     ((g.edges.filter (fun e => e.dst = v)).map (fun e => e.src)))

/-- Breadth-first layers for `nx.single_source_shortest_path_length` with a
cutoff: `fuel` counts remaining layers. -/
def bfsAux (g : DiGraph) : ℕ → List String → List (String × ℕ) → ℕ → List (String × ℕ)
  | 0, _, vis, _ => vis
  | fuel + 1, frontier, vis, d =>
      let nxt := (dedupKeepFirst (frontier.flatMap (undirectedAdj g))).filter
        (fun v => ¬ vis.any (fun p => p.1 = v))
      if nxt = [] then vis
      else bfsAux g fuel nxt (vis ++ nxt.map (fun v => (v, d + 1))) (d + 1)

/-- `nx.single_source_shortest_path_length(G.to_undirected(), src, cutoff)`. -/
def shortest_path_lengths (g : DiGraph) (src : String) (cutoff : ℕ) : List (String × ℕ) :=
  bfsAux g cutoff [src] [(src, 0)] 0

/-- All simple paths in `g` staying inside `allowed`, starting from the
reversed seed path (head = current node); used to model `nx.simple_cycles`. -/
def extendAll (g : DiGraph) (allowed : List String) : ℕ → List String → List (List String)
  | 0, path => [path]
  | fuel + 1, path =>
      let cur := path.headD ""
      path ::
        ((neighborsOut g cur).filter (fun n => n ∈ allowed && n ∉ path)).flatMap
          (fun n => extendAll g allowed fuel (n :: path))

/-- Edge-existence test. -/
def hasEdgeB (g : DiGraph) (u v : String) : Bool := (g.findEdge u v).isSome

/-- `nx.simple_cycles`: every simple cycle exactly once, rooted at its
node-order-minimal member. -/
def simple_cycles (g : DiGraph) : List (List String) :=
  let ns := g.nodes
  ns.enum.flatMap (fun p =>
    let v := p.2
    let allowed := ns.drop p.1
    (extendAll g allowed ns.length [v]).filterMap (fun revPath =>
      let path := revPath.reverse
      if path.headD "" = v && hasEdgeB g (path.getLastD "") v then some path else none))

/-! ## Pattern records -/

/-- A pattern record; the union of the dict fields the embedded detectors
emit (`detection_timestamp = int(time.time())`, a wall-clock read, is not
modelled). -/
structure Pattern where
  pattern_id : String
  pattern_type : String
  pattern_subtype : Option String := none
  pattern_hash : String
  addresses_involved : List String
  address_roles : List String
  severity_score : ℚ := 0
  confidence_score : ℚ := 0
  risk_score : ℚ := 0
  network_members : List String := []
  network_size : ℕ := 0
  network_density : ℚ := 0
  hub_addresses : List String := []
  cycle_path : List String := []
  cycle_length : ℕ := 0
  cycle_volume_usd : ℚ := 0
  risk_source_address : String := ""
  distance_to_risk : ℕ := 0
  risk_propagation_score : ℚ := 0
  layering_path : List String := []
  path_depth : ℕ := 0
  path_volume_usd : ℚ := 0
  source_address : String := ""
  destination_address : String := ""
  motif_type : String := ""
  motif_center_address : String := ""
  motif_participant_count : ℕ := 0
  primary_address : String := ""
  threshold_value : ℚ := 0
  threshold_type : String := ""
  transactions_near_threshold : ℕ := 0
  avg_transaction_size : ℚ := 0
  max_transaction_size : ℚ := 0
  size_consistency : ℚ := 0
  clustering_score : ℚ := 0
  unique_days : ℕ := 0
  avg_daily_transactions : ℕ := 0
  temporal_spread_score : ℚ := 0
  threshold_avoidance_score : ℚ := 0
  evidence_transaction_count : ℕ := 0
  evidence_volume_usd : ℚ := 0
  detection_method : String := ""
  anomaly_score : ℚ := 0
deriving DecidableEq, Repr

/-! ## `NetworkDetector` (`network_detector.py`) -/

/-- The `scc_analysis` configuration section. -/
structure SccConfig where
  min_scc_size : ℕ
  z_score_normalization : ℚ
  anomaly_threshold : ℚ
  confidence_score : ℚ
  risk_score_multiplier : ℚ
deriving DecidableEq, Repr

/-- A floor square root on rationals, exact on perfect squares; used to
instantiate the abstracted `np.std` square root on concrete inputs. -/
def sqrtQ (q : ℚ) : ℚ := ((Nat.sqrt q.num.toNat : ℚ)) / ((Nat.sqrt q.den : ℚ))

/-- The sizes of the strongly connected components (`scc_sizes` in
`_analyze_scc`). -/
def sccSizes (g : DiGraph) : List ℕ :=
  (strongly_connected_components g).map (fun s => s.length)

/-- `np.mean(scc_sizes)`. -/
def sccMean (g : DiGraph) : ℚ :=
  (((sccSizes g).map (fun s => (s : ℚ))).sum) / ((sccSizes g).length : ℚ)

/-- The population variance of the SCC sizes (the square of `np.std`). -/
def sccVariance (g : DiGraph) : ℚ :=
  (((sccSizes g).map (fun s => ((s : ℚ) - sccMean g) ^ 2)).sum) / ((sccSizes g).length : ℚ)

/-- The base anomaly score of an SCC of size `sz`:
`min(|z| / z_score_normalization, 1)` when the size deviation is positive,
else 0 (`np.std` takes a real square root of the population variance; since
that is irrational in general it is abstracted as the parameter `sqrtA`). -/
def scc_base_score (sqrtA : ℚ → ℚ) (scc_cfg : SccConfig) (g : DiGraph) (sz : ℕ) : ℚ :=
  if 0 < sqrtA (sccVariance g) then
    min ((|(sz : ℚ) - sccMean g| / sqrtA (sccVariance g)) / scc_cfg.z_score_normalization) 1
  else 0

/-- `NetworkDetector._analyze_scc`.  Note line 88 of the source: the id is
`generate_pattern_id('scc', pattern_hash)` while `pattern_type` is
`smurfing_network`. -/
def analyze_scc (sqrtA : ℚ → ℚ) (scc_cfg : SccConfig) (sev_cfg : SeverityConfig)
    (labels : LabelsCache) (g : DiGraph) : List Pattern :=
  let sccs := strongly_connected_components g
  if sccSizes g = [] then []
  else
    sccs.foldl
      (fun acc scc =>
        if scc.length < scc_cfg.min_scc_size then acc
        else
          let base := scc_base_score sqrtA scc_cfg g scc.length
          let anomaly := adjust_severity_for_trust sev_cfg labels base scc
          if anomaly < scc_cfg.anomaly_threshold then acc
          else
            let sorted_scc := pySorted scc
            let ph := generate_pattern_hash "smurfing_network" sorted_scc
            let pid := generate_pattern_id "scc" ph
            if acc.any (fun p => p.pattern_id = pid) then acc
            else
              let sub := subgraphEdges g scc
              acc ++ [{ pattern_id := pid
                        pattern_type := "smurfing_network"
                        pattern_subtype := some "anomalous_scc"
                        pattern_hash := ph
                        addresses_involved := sorted_scc
                        address_roles := List.replicate sorted_scc.length "participant"
                        severity_score := anomaly
                        confidence_score := scc_cfg.confidence_score
                        risk_score := anomaly * scc_cfg.risk_score_multiplier
                        network_members := sorted_scc
                        network_size := scc.length
                        network_density := densityDirected scc.length sub.length
                        evidence_transaction_count := sub.length
                        evidence_volume_usd := (sub.map (fun e => e.amount_usd_sum)).sum
                        detection_method := "scc_analysis"
                        anomaly_score := anomaly }])
      []

/-- The `network_analysis` configuration section. -/
structure NetworkConfig where
  min_community_size : ℕ
  max_community_size : ℕ
  confidence_score : ℚ
  risk_score_multiplier : ℚ
  small_transaction_threshold : ℚ
  small_transaction_ratio_threshold : ℚ
  density_threshold : ℚ
  max_size_factor : ℚ
  max_density_factor : ℚ
  size_severity_weight : ℚ
  density_severity_weight : ℚ
deriving DecidableEq, Repr

/-- `NetworkDetector._is_smurfing_network` on the induced community subgraph
(the computed-but-unused `avg_volume` of the source is dropped). -/
def is_smurfing_network (cfg : NetworkConfig) (nNodes : ℕ) (commEdges : List GraphEdge) : Bool :=
  if nNodes < cfg.min_community_size then false
  else
    let volumes := commEdges.map (fun e => e.amount_usd_sum)
    if volumes = [] then false
    else
      let small_tx_ratio : ℚ :=
        ((volumes.countP (fun v => v < cfg.small_transaction_threshold)) : ℚ) /
          (volumes.length : ℚ)
      let density := densityDirected nNodes commEdges.length
      small_tx_ratio > cfg.small_transaction_ratio_threshold && density > cfg.density_threshold

/-- `NetworkDetector._calculate_smurfing_severity`. -/
def calculate_smurfing_severity (cfg : NetworkConfig) (nNodes : ℕ)
    (commEdges : List GraphEdge) : ℚ :=
  let density := densityDirected nNodes commEdges.length
  let size_factor := min ((nNodes : ℚ) / cfg.max_size_factor) 1
  let density_factor := min (density / cfg.max_density_factor) 1
  size_factor * cfg.size_severity_weight + density_factor * cfg.density_severity_weight

/-- Total (in + out) degree of a node within an edge list (a self-loop counts
twice, as in networkx `DiGraph.degree`). -/
def degreeIn (edges : List GraphEdge) (v : String) : ℕ :=
  (edges.filter (fun e => e.dst = v)).length

/-- Out-degree within an edge list. -/
def degreeOut (edges : List GraphEdge) (v : String) : ℕ :=
  (edges.filter (fun e => e.src = v)).length

/-- `NetworkDetector._identify_hubs_in_network`: top fifth (at least one) of
community nodes by total degree, stable descending sort. -/
def identify_hubs_in_network (commNodes : List String) (commEdges : List GraphEdge) :
    List String :=
  if commNodes.length < 3 then []
  else
    let degrees := commNodes.map (fun v => (v, degreeIn commEdges v + degreeOut commEdges v))
    let sorted := degrees.insertionSort (fun a b => b.2 ≤ a.2)
    let num_hubs := max 1 (degrees.length / 5)
    (sorted.take num_hubs).map (fun p => p.1)

/-- `NetworkDetector._detect_smurfing`.  The
`nx.community.greedy_modularity_communities` library call is abstracted as the
`communities` parameter (every theorem below holds for all values of it);
community membership is induced on the directed graph exactly as in the
source. -/
def detect_smurfing (communities : List (List String)) (net_cfg : NetworkConfig)
    (sev_cfg : SeverityConfig) (labels : LabelsCache) (g : DiGraph) : List Pattern :=
  communities.foldl
    (fun acc community =>
      if community.length < net_cfg.min_community_size ||
         net_cfg.max_community_size < community.length then acc
      else
        let commNodes := g.nodes.filter (fun v => v ∈ community)
        let commEdges := subgraphEdges g community
        if ¬ is_smurfing_network net_cfg commNodes.length commEdges then acc
        else
          let sorted_community := pySorted community
          let ph := generate_pattern_hash "smurfing_network" sorted_community
          let pid := generate_pattern_id "smurfing_network" ph
          if acc.any (fun p => p.pattern_id = pid) then acc
          else
            let density := densityDirected commNodes.length commEdges.length
            let total_volume := (commEdges.map (fun e => e.amount_usd_sum)).sum
            let base_severity := calculate_smurfing_severity net_cfg commNodes.length commEdges
            let severity := adjust_severity_for_trust sev_cfg labels base_severity community
            let hubs := identify_hubs_in_network commNodes commEdges
            acc ++ [{ pattern_id := pid
                      pattern_type := "smurfing_network"
                      pattern_hash := ph
                      addresses_involved := sorted_community
                      address_roles := sorted_community.map
                        (fun a => if a ∈ hubs then "hub" else "participant")
                      severity_score := severity
                      confidence_score := net_cfg.confidence_score
                      risk_score := severity * net_cfg.risk_score_multiplier
                      network_members := sorted_community
                      network_size := community.length
                      network_density := density
                      hub_addresses := hubs
                      evidence_transaction_count := commEdges.length
                      evidence_volume_usd := total_volume
                      detection_method := "network_analysis"
                      anomaly_score := severity }])
    []

/-! ## `ProximityDetector` (`proximity_detector.py`) -/

/-- The `proximity_analysis` configuration section. -/
structure ProximityConfig where
  max_distance : ℕ
  confidence_score : ℚ
  base_severity : ℚ
  distance_decay_factor : ℚ
deriving DecidableEq, Repr

/-- The `risk_identification` configuration section. -/
structure RiskConfig where
  high_volume_threshold : ℚ
  high_degree_threshold : ℚ
deriving DecidableEq, Repr

/-- In-volume plus out-volume of a node over `amount_usd_sum`. -/
def nodeVolume (g : DiGraph) (v : String) : ℚ :=
  ((g.edges.filter (fun e => e.dst = v)).map (fun e => e.amount_usd_sum)).sum +
  ((g.edges.filter (fun e => e.src = v)).map (fun e => e.amount_usd_sum)).sum

/-- `ProximityDetector._identify_risk_addresses`: the high volume + high
degree heuristic. -/
def identify_risk_addresses (risk_cfg : RiskConfig) (g : DiGraph) : List String :=
  g.nodes.filter (fun v =>
    nodeVolume g v > risk_cfg.high_volume_threshold &&
    ((degreeIn g.edges v + degreeOut g.edges v : ℕ) : ℚ) > risk_cfg.high_degree_threshold)

/-- The per-risk-source loop body of `ProximityDetector.detect`: one pattern
per reachable address within `max_distance` of the risk source, deduplicated
by id.  The severity adjustment is applied to `[address]` — the suspect
only. -/
def proximity_risk_fold (prox_cfg : ProximityConfig) (sev_cfg : SeverityConfig)
    (labels : LabelsCache) (g : DiGraph) (acc : List Pattern) (risk_addr : String) :
    List Pattern :=
  (shortest_path_lengths g risk_addr prox_cfg.max_distance).foldl
    (fun acc (p : String × ℕ) =>
      let address := p.1
      let distance := p.2
      if address = risk_addr || distance = 0 then acc
      else
        let ph := generate_pattern_hash "proximity_risk" [risk_addr, address]
        let pid := generate_pattern_id "proximity_risk" ph
        if acc.any (fun q => q.pattern_id = pid) then acc
        else
          let risk_propagation := prox_cfg.distance_decay_factor / ((distance : ℚ) + 1)
          let calculated_severity := risk_propagation * prox_cfg.base_severity
          let severity := adjust_severity_for_trust sev_cfg labels calculated_severity [address]
          acc ++ [{ pattern_id := pid
                    pattern_type := "proximity_risk"
                    pattern_hash := ph
                    addresses_involved := [risk_addr, address]
                    address_roles := ["risk_source", "suspect"]
                    severity_score := severity
                    confidence_score := prox_cfg.confidence_score
                    risk_score := severity
                    risk_source_address := risk_addr
                    distance_to_risk := distance
                    risk_propagation_score := risk_propagation
                    evidence_transaction_count :=
                      degreeIn g.edges address + degreeOut g.edges address
                    evidence_volume_usd := nodeVolume g address
                    detection_method := "proximity_analysis"
                    anomaly_score := severity }])
    acc

/-- `ProximityDetector.detect` main loop (the per-risk-address body is
`proximity_risk_fold`). -/
def proximity_detect (prox_cfg : ProximityConfig) (risk_cfg : RiskConfig)
    (sev_cfg : SeverityConfig) (labels : LabelsCache) (g : DiGraph) : List Pattern :=
  let fraudulent := g.nodes.filter (fun a => is_fraudulent_address labels a)
  let risks := if fraudulent = [] then identify_risk_addresses risk_cfg g else fraudulent
  if risks = [] then []
  else risks.foldl (proximity_risk_fold prox_cfg sev_cfg labels g) []

/-! ## `CycleDetector` (`cycle_detector.py`) -/

/-- The `cycle_detection` configuration section. -/
structure CycleConfig where
  max_cycle_length : ℕ
  max_cycles_per_scc : ℕ
  min_cycle_length : ℕ
deriving DecidableEq, Repr

/-- `CycleDetector._calculate_cycle_volume`: sum of `amount_usd_sum` over the
consecutive (wrapping) edges of the cycle that exist in `G`. -/
def calculate_cycle_volume (g : DiGraph) (cycle : List String) : ℚ :=
  (List.range cycle.length).foldl
    (fun acc i =>
      let u := cycle.getD i ""
      let v := cycle.getD ((i + 1) % cycle.length) ""
      match g.findEdge u v with
      | some e => acc + e.amount_usd_sum
      | none => acc)
    0

/-- `CycleDetector.detect`: for every SCC of size ≥ 2, enumerate simple
cycles of the induced subgraph, keep lengths within bounds, cap the number of
cycles per SCC, deduplicate by pattern id. -/
def cycle_detect (cfg : CycleConfig) (g : DiGraph) : List Pattern :=
  (strongly_connected_components g).foldl
    (fun acc scc =>
      if scc.length < 2 then acc
      else
        let sub : DiGraph := ⟨subgraphEdges g scc⟩
        ((simple_cycles sub).foldl
          (fun (st : List Pattern × ℕ) cycle =>
            if cfg.max_cycles_per_scc ≤ st.2 then st
            else if cycle.length < cfg.min_cycle_length ||
                    cfg.max_cycle_length < cycle.length then st
            else
              let sorted_cycle := pySorted cycle
              let ph := generate_pattern_hash "cycle" sorted_cycle
              let pid := generate_pattern_id "cycle" ph
              if st.1.any (fun p => p.pattern_id = pid) then st
              else
                let vol := calculate_cycle_volume g cycle
                (st.1 ++ [{ pattern_id := pid
                            pattern_type := "cycle"
                            pattern_hash := ph
                            addresses_involved := sorted_cycle
                            address_roles := List.replicate sorted_cycle.length "participant"
                            cycle_path := cycle
                            cycle_length := cycle.length
                            cycle_volume_usd := vol
                            evidence_transaction_count := cycle.length
                            evidence_volume_usd := vol
                            detection_method := "cycle_detection" }], st.2 + 1))
          (acc, 0)).1)
    []

/-! ## `LayeringDetector` (`layering_detector.py`) -/

/-- `⌊q⌋` as integer division of numerator by denominator (computable floor). -/
def ratFloor (q : ℚ) : Int := q.num / (q.den : Int)

/-- `np.percentile` with the default linear interpolation: sort ascending,
take rank `pct/100 · (n-1)` and interpolate between the two bracketing
entries. -/
def percentileQ (xs : List ℚ) (pct : ℚ) : ℚ :=
  let s := sortQ xs
  let n := s.length
  if n = 0 then 0
  else
    let k : ℚ := pct * ((n : ℚ) - 1) / 100
    let lower : ℕ := (ratFloor k).toNat
    let frac : ℚ := k - (lower : ℚ)
    if lower + 1 < n then s.getD lower 0 + frac * (s.getD (lower + 1) 0 - s.getD lower 0)
    else s.getD lower 0

/-- `nx.all_simple_paths(G, src, dst, cutoff)`: every simple path of at most
`cutoff` edges from `src` to `dst`, in depth-first order (the model reuses the
simple-path enumerator of `simple_cycles` with all nodes allowed). -/
def all_simple_paths (g : DiGraph) (src dst : String) (cutoff : ℕ) : List (List String) :=
  (extendAll g g.nodes cutoff [src]).filterMap (fun revPath =>
    let path := revPath.reverse
    if path.getLastD "" = dst && 2 ≤ path.length then some path else none)

/-- The `path_analysis` configuration section. -/
structure PathAnalysisConfig where
  min_path_length : ℕ
  max_path_length : ℕ
  max_paths_to_check : ℕ
  high_volume_percentile : ℚ
  max_source_nodes : ℕ
  max_target_nodes : ℕ
  layering_min_volume : ℚ
  layering_cv_threshold : ℚ
deriving DecidableEq, Repr

/-- `LayeringDetector._calculate_path_volume`: sum of `amount_usd_sum` over
the consecutive edges of the path that exist in `G`. -/
def calculate_path_volume (g : DiGraph) (path : List String) : ℚ :=
  (List.range (path.length - 1)).foldl
    (fun acc i =>
      match g.findEdge (path.getD i "") (path.getD (i + 1) "") with
      | some e => acc + e.amount_usd_sum
      | none => acc)
    0

/-- `LayeringDetector._is_layering_pattern`: the path is long enough, carries
enough volume, and its consecutive-edge volumes have a coefficient of
variation below the threshold (`np.std` is abstracted as `sqrtA` of the
population variance, as in `_analyze_scc`). -/
def is_layering_pattern (sqrtA : ℚ → ℚ) (path_cfg : PathAnalysisConfig) (g : DiGraph)
    (path : List String) (volume : ℚ) : Bool :=
  if path.length < 3 || volume < path_cfg.layering_min_volume then false
  else
    let volumes := (List.range (path.length - 1)).foldl
      (fun acc i =>
        match g.findEdge (path.getD i "") (path.getD (i + 1) "") with
        | some e => acc ++ [e.amount_usd_sum]
        | none => acc)
      []
    if volumes = [] then false
    else
      let mean_vol := volumes.sum / (volumes.length : ℚ)
      let std_vol := sqrtA ((volumes.map (fun v => (v - mean_vol) ^ 2)).sum /
        (volumes.length : ℚ))
      let cv := std_vol / max mean_vol 1
      cv < path_cfg.layering_cv_threshold

/-- The body of `LayeringDetector.detect` for one candidate path, threaded
through the `(patterns_by_id, paths_checked)` state: the counter is bumped for
every yielded path, and the path whose bump reaches `max_paths_to_check` is
dropped (the Python `break` fires after the increment, before processing). -/
def layering_path_step (sqrtA : ℚ → ℚ) (path_cfg : PathAnalysisConfig) (g : DiGraph)
    (source target : String) (st : List Pattern × ℕ) (path : List String) :
    List Pattern × ℕ :=
  if path_cfg.max_paths_to_check ≤ st.2 then st
  else
    let checked := st.2 + 1
    if path_cfg.max_paths_to_check ≤ checked then (st.1, checked)
    else if path.length < path_cfg.min_path_length then (st.1, checked)
    else
      let path_volume := calculate_path_volume g path
      if is_layering_pattern sqrtA path_cfg g path path_volume then
        let sorted_path := pySorted path
        let ph := generate_pattern_hash "layering_path" sorted_path
        let pid := generate_pattern_id "layering_path" ph
        if st.1.any (fun p => p.pattern_id = pid) then (st.1, checked)
        else
          (st.1 ++ [{ pattern_id := pid
                      pattern_type := "layering_path"
                      pattern_hash := ph
                      addresses_involved := sorted_path
                      address_roles := ["source"] ++
                        List.replicate (path.length - 2) "intermediary" ++ ["destination"]
                      layering_path := path
                      path_depth := path.length
                      path_volume_usd := path_volume
                      source_address := source
                      destination_address := target
                      evidence_transaction_count := path.length - 1
                      evidence_volume_usd := path_volume
                      detection_method := "path_analysis" }], checked)
      else (st.1, checked)

/-- `LayeringDetector.detect`: nodes at or above the volume percentile are
paired (sources × targets, truncated by the configured caps) and their simple
paths scanned under the global `paths_checked` budget.  The `NetworkXNoPath`
handler of the source is dead code (`all_simple_paths` yields nothing instead
of raising). -/
def layering_detect (sqrtA : ℚ → ℚ) (path_cfg : PathAnalysisConfig) (g : DiGraph) :
    List Pattern :=
  let node_volumes := g.nodes.map (fun v => (v, nodeVolume g v))
  let volume_threshold :=
    if node_volumes = [] then 0
    else percentileQ (node_volumes.map (fun p => p.2)) path_cfg.high_volume_percentile
  let high_volume_nodes :=
    (node_volumes.filter (fun p => volume_threshold ≤ p.2)).map (fun p => p.1)
  if high_volume_nodes.length < 2 then []
  else
    ((high_volume_nodes.take path_cfg.max_source_nodes).foldl
      (fun st source =>
        if path_cfg.max_paths_to_check ≤ st.2 then st
        else
          (high_volume_nodes.take path_cfg.max_target_nodes).foldl
            (fun st2 target =>
              if source = target || path_cfg.max_paths_to_check ≤ st2.2 then st2
              else
                (all_simple_paths g source target path_cfg.max_path_length).foldl
                  (layering_path_step sqrtA path_cfg g source target) st2)
            st)
      ([], 0)).1

/-! ## `MotifDetector` (`motif_detector.py`) -/

/-- The `motif_detection` configuration section. -/
structure MotifConfig where
  degree_percentile_threshold : ℚ
  fanin_max_out_degree : ℚ
  fanout_max_in_degree : ℚ
deriving DecidableEq, Repr

/-- The fan-in arm of the `MotifDetector.detect` loop body: when the node's
in-degree reaches the percentile threshold and its out-degree stays under the
cap, emit a fan-in motif over the node and its in-neighbours (hash over the
sorted addresses, `addresses_involved` unsorted as in the source),
deduplicated by id. -/
def motif_fanin_step (motif_cfg : MotifConfig) (g : DiGraph) (in_degree_threshold : ℚ)
    (acc : List Pattern) (node : String) : List Pattern :=
  let in_deg := degreeIn g.edges node
  let out_deg := degreeOut g.edges node
  if in_degree_threshold ≤ (in_deg : ℚ) ∧
      (out_deg : ℚ) ≤ motif_cfg.fanin_max_out_degree then
    let in_neighbors := (g.edges.filter (fun e => e.dst = node)).map (fun e => e.src)
    let all_addresses := node :: in_neighbors
    let ph := generate_pattern_hash "motif_fanin" (pySorted all_addresses)
    let pid := generate_pattern_id "motif_fanin" ph
    if acc.any (fun p => p.pattern_id = pid) then acc
    else
      acc ++ [{ pattern_id := pid
                pattern_type := "motif_fanin"
                pattern_hash := ph
                addresses_involved := all_addresses
                address_roles := "center" ::
                  List.replicate in_neighbors.length "source"
                motif_type := "fanin"
                motif_center_address := node
                motif_participant_count := in_deg + out_deg
                evidence_transaction_count := in_deg
                evidence_volume_usd :=
                  ((g.edges.filter (fun e => e.dst = node)).map
                    (fun e => e.amount_usd_sum)).sum
                detection_method := "motif_detection" }]
  else acc

/-- The fan-out arm of the `MotifDetector.detect` loop body (mirror image of
`motif_fanin_step` over the out-neighbours, sharing the dedup store). -/
def motif_fanout_step (motif_cfg : MotifConfig) (g : DiGraph) (out_degree_threshold : ℚ)
    (acc : List Pattern) (node : String) : List Pattern :=
  let in_deg := degreeIn g.edges node
  let out_deg := degreeOut g.edges node
  if out_degree_threshold ≤ (out_deg : ℚ) ∧
      (in_deg : ℚ) ≤ motif_cfg.fanout_max_in_degree then
    let out_neighbors := (g.edges.filter (fun e => e.src = node)).map (fun e => e.dst)
    let all_addresses := node :: out_neighbors
    let ph := generate_pattern_hash "motif_fanout" (pySorted all_addresses)
    let pid := generate_pattern_id "motif_fanout" ph
    if acc.any (fun p => p.pattern_id = pid) then acc
    else
      acc ++ [{ pattern_id := pid
                pattern_type := "motif_fanout"
                pattern_hash := ph
                addresses_involved := all_addresses
                address_roles := "center" ::
                  List.replicate out_neighbors.length "destination"
                motif_type := "fanout"
                motif_center_address := node
                motif_participant_count := in_deg + out_deg
                evidence_transaction_count := out_deg
                evidence_volume_usd :=
                  ((g.edges.filter (fun e => e.src = node)).map
                    (fun e => e.amount_usd_sum)).sum
                detection_method := "motif_detection" }]
  else acc

/-- `MotifDetector.detect`: per node, the fan-in arm then the fan-out arm
(`motif_fanin_step`, `motif_fanout_step`), thresholds from the degree
percentiles over all nodes. -/
def motif_detect (motif_cfg : MotifConfig) (g : DiGraph) : List Pattern :=
  let in_degrees := g.nodes.map (fun v => degreeIn g.edges v)
  let out_degrees := g.nodes.map (fun v => degreeOut g.edges v)
  if in_degrees = [] || out_degrees = [] then []
  else
    let in_degree_threshold :=
      percentileQ (in_degrees.map (fun d => (d : ℚ))) motif_cfg.degree_percentile_threshold
    let out_degree_threshold :=
      percentileQ (out_degrees.map (fun d => (d : ℚ))) motif_cfg.degree_percentile_threshold
    g.nodes.foldl
      (fun acc node =>
        motif_fanout_step motif_cfg g out_degree_threshold
          (motif_fanin_step motif_cfg g in_degree_threshold acc node) node)
      []

/-! ## `ThresholdDetector` (`threshold_detector.py`) -/

/-- Fractional decimal digits of `num/den`, at most `fuel` of them (Python
floats print at most 17 significant digits; the configs' threshold values
have short terminating expansions, where this agrees with `str`). -/
def fracDigits : ℕ → ℕ → ℕ → String
  | 0, _, _ => ""
  | _, 0, _ => ""
  | fuel + 1, r, d =>
      let r10 := r * 10
      toString (r10 / d) ++ fracDigits fuel (r10 % d) d

/-- Python `str` on a float with a terminating decimal expansion:
sign, integer part, a dot, and the fractional digits (`.0` when integral). -/
def pyFloatStr (q : ℚ) : String :=
  let sign := if q < 0 then "-" else ""
  let n := q.num.natAbs
  let ip := n / q.den
  let frac := fracDigits 17 (n % q.den) q.den
  sign ++ toString ip ++ "." ++ (if frac = "" then "0" else frac)

/-- The `threshold_detection` configuration section (optional keys as
`Option`, the `.get` defaults of the source applied by the caller). -/
structure ThresholdConfig where
  reporting_threshold_usd : Option ℚ
  custom_thresholds : List (String × ℚ)
  min_transactions_near_threshold : ℕ
  clustering_score_threshold : ℚ
  size_consistency_threshold : ℚ
  confidence_score : ℚ
  risk_score_multiplier : ℚ
  near_threshold_lower_pct : ℚ
  near_threshold_upper_pct : ℚ
  clustering_severity_weight : ℚ
  consistency_severity_weight : ℚ
  temporal_severity_weight : ℚ
deriving DecidableEq, Repr

/-- `ThresholdDetector._get_thresholds`: the reporting threshold (if set),
then the custom thresholds, with a `default = 10000.0` fallback. -/
def get_thresholds (cfg : ThresholdConfig) : List (String × ℚ) :=
  let ts := (match cfg.reporting_threshold_usd with
    | some v => [("reporting", v)]
    | none => []) ++ cfg.custom_thresholds
  if ts = [] then [("default", 10000)] else ts

/-- The per-node transaction sizes of `_analyze_threshold_evasion`: each
out-edge contributes its amount, split into `tx_count` equal estimated
transactions when aggregated. -/
def transaction_amounts (g : DiGraph) (node : String) : List ℚ :=
  (g.edges.filter (fun e => e.src = node)).flatMap (fun e =>
    if 1 < e.tx_count then
      List.replicate e.tx_count (e.amount_usd_sum / (e.tx_count : ℚ))
    else [e.amount_usd_sum])

/-- The evasion-analysis dictionary `_analyze_threshold_evasion` returns. -/
structure EvasionInfo where
  transactions_near_threshold : ℕ
  avg_transaction_size : ℚ
  max_transaction_size : ℚ
  size_consistency : ℚ
  clustering_score : ℚ
  unique_days : ℕ
  avg_daily_transactions : ℕ
  temporal_spread_score : ℚ
  threshold_avoidance_score : ℚ
deriving DecidableEq, Repr

/-- `ThresholdDetector._analyze_threshold_evasion` (the unused
`threshold_type` parameter of the source is dropped; `np.std` is abstracted as
`sqrtA` of the population variance; the temporal fields are the source's
placeholders).  The avoidance score inlines `_calculate_avoidance_score`. -/
def analyze_threshold_evasion (sqrtA : ℚ → ℚ) (cfg : ThresholdConfig) (g : DiGraph)
    (node : String) (threshold : ℚ) : Option EvasionInfo :=
  let amounts := transaction_amounts g node
  if amounts.length < cfg.min_transactions_near_threshold then none
  else
    let lo := threshold * cfg.near_threshold_lower_pct
    let hi := threshold * cfg.near_threshold_upper_pct
    let near := amounts.filter (fun a => lo ≤ a ∧ a ≤ hi)
    if near.length < cfg.min_transactions_near_threshold then none
    else
      let clustering := (near.length : ℚ) / (amounts.length : ℚ)
      if clustering < cfg.clustering_score_threshold then none
      else
        let mean := near.sum / (near.length : ℚ)
        let size_consistency :=
          if 1 < near.length then
            let cv := sqrtA ((near.map (fun v => (v - mean) ^ 2)).sum /
              (near.length : ℚ)) / max mean 1
            max 0 (1 - cv)
          else 1
        if size_consistency < cfg.size_consistency_threshold then none
        else
          let temporal : ℚ := 1/2
          let score := min (clustering * cfg.clustering_severity_weight +
            size_consistency * cfg.consistency_severity_weight +
            temporal * cfg.temporal_severity_weight) 1
          some { transactions_near_threshold := near.length
                 avg_transaction_size := mean
                 max_transaction_size := near.foldl max (near.headD 0)
                 size_consistency := size_consistency
                 clustering_score := clustering
                 unique_days := 1
                 avg_daily_transactions := near.length
                 temporal_spread_score := temporal
                 threshold_avoidance_score := score }

/-- `ThresholdDetector.detect`.  Note lines 58-61 of the source: the hash is
taken over `[node, threshold_type, str(threshold_value)]`, not over the
participant addresses, while `addresses_involved` is `[node]`. -/
def threshold_detect (sqrtA : ℚ → ℚ) (cfg : ThresholdConfig) (sev_cfg : SeverityConfig)
    (labels : LabelsCache) (g : DiGraph) : List Pattern :=
  let thresholds := get_thresholds cfg
  g.nodes.foldl
    (fun acc node =>
      thresholds.foldl
        (fun acc2 (tt : String × ℚ) =>
          match analyze_threshold_evasion sqrtA cfg g node tt.2 with
          | none => acc2
          | some ev =>
              let ph := generate_pattern_hash "threshold_evasion"
                [node, tt.1, pyFloatStr tt.2]
              let pid := generate_pattern_id "threshold_evasion" ph
              if acc2.any (fun p => p.pattern_id = pid) then acc2
              else
                let severity := adjust_severity_for_trust sev_cfg labels
                  ev.threshold_avoidance_score [node]
                acc2 ++ [{ pattern_id := pid
                           pattern_type := "threshold_evasion"
                           pattern_hash := ph
                           addresses_involved := [node]
                           address_roles := ["primary_address"]
                           severity_score := severity
                           confidence_score := cfg.confidence_score
                           risk_score := min (severity * cfg.risk_score_multiplier) 1
                           primary_address := node
                           threshold_value := tt.2
                           threshold_type := tt.1
                           transactions_near_threshold := ev.transactions_near_threshold
                           avg_transaction_size := ev.avg_transaction_size
                           max_transaction_size := ev.max_transaction_size
                           size_consistency := ev.size_consistency
                           clustering_score := ev.clustering_score
                           unique_days := ev.unique_days
                           avg_daily_transactions := ev.avg_daily_transactions
                           temporal_spread_score := ev.temporal_spread_score
                           threshold_avoidance_score := ev.threshold_avoidance_score
                           evidence_transaction_count := ev.transactions_near_threshold
                           evidence_volume_usd := ev.avg_transaction_size *
                             (ev.transactions_near_threshold : ℚ)
                           detection_method := "temporal_analysis"
                           anomaly_score := severity }])
        acc)
    []

/-! ## `BurstDetector` (`burst_detector.py`) -/

/-- The `burst_detection` configuration section (the `.get` defaults of the
source). -/
structure BurstConfig where
  min_burst_intensity : ℚ := 3
  min_burst_transactions : ℕ := 10
  time_window_seconds : ℕ := 3600
  z_score_threshold : ℚ := 2
  confidence_score : ℚ := 3/4
  risk_score_multiplier : ℚ := 4/5
  intensity_severity_weight : ℚ := 2/5
  volume_severity_weight : ℚ := 3/10
  z_score_severity_weight : ℚ := 3/10
deriving DecidableEq, Repr

/-- The burst-report dictionary `_analyze_temporal_bursts` would return. -/
structure BurstReport where
  burst_start_timestamp : ℕ
  burst_end_timestamp : ℕ
  burst_duration_seconds : ℕ
  burst_transaction_count : ℕ
  burst_volume_usd : ℚ
  normal_tx_rate : ℚ
  burst_tx_rate : ℚ
  burst_intensity : ℚ
  z_score : ℚ
deriving DecidableEq, Repr

/-- `BurstDetector._has_timestamp_data`: inspects only the first edge (the
loop returns unconditionally on its first iteration). -/
def has_timestamp_data (g : DiGraph) : Bool :=
  match g.edges with
  | [] => false
  | e :: _ => e.timestamps.isSome

/-- `BurstDetector._analyze_temporal_bursts` is an explicit placeholder in
the source ("Placeholder implementation - would need actual timestamp data")
and returns `None` for every node. -/
def analyze_temporal_bursts (_g : DiGraph) (_node : String) (_cfg : BurstConfig) :
    Option BurstReport :=
  none

/-- `BurstDetector._calculate_burst_severity`. -/
def calculate_burst_severity (cfg : BurstConfig) (bp : BurstReport) : ℚ :=
  let intensity_factor := min (bp.burst_intensity / 10) 1
  let volume_factor := min (bp.burst_volume_usd / 100000) 1
  let z_score_factor := min (bp.z_score / 5) 1
  min (intensity_factor * cfg.intensity_severity_weight +
       volume_factor * cfg.volume_severity_weight +
       z_score_factor * cfg.z_score_severity_weight) 1

/-- `BurstDetector.detect`: empty when the (first) edge has no timestamps,
otherwise one pattern per node whose `_analyze_temporal_bursts` reports a
burst. -/
def burst_detect (cfg : BurstConfig) (sev_cfg : SeverityConfig) (labels : LabelsCache)
    (g : DiGraph) : List Pattern :=
  if ¬ has_timestamp_data g then []
  else
    g.nodes.foldl
      (fun acc node =>
        match analyze_temporal_bursts g node cfg with
        | none => acc
        | some bp =>
            let ph := generate_pattern_hash "temporal_burst"
              [node, toString bp.burst_start_timestamp]
            let pid := generate_pattern_id "temporal_burst" ph
            if acc.any (fun p => p.pattern_id = pid) then acc
            else
              let base := calculate_burst_severity cfg bp
              let severity := adjust_severity_for_trust sev_cfg labels base [node]
              acc ++ [{ pattern_id := pid
                        pattern_type := "temporal_burst"
                        pattern_hash := ph
                        addresses_involved := [node]
                        address_roles := ["burst_source"]
                        severity_score := severity
                        confidence_score := cfg.confidence_score
                        risk_score := min (severity * cfg.risk_score_multiplier) 1
                        evidence_transaction_count := bp.burst_transaction_count
                        evidence_volume_usd := bp.burst_volume_usd
                        detection_method := "temporal_analysis"
                        anomaly_score := severity }])
      []

/-! ## `TypologyDetector` (`typology_detector.py`) -/

/-- The numeric entries of an alert's `evidence` dictionary, in insertion
order (non-numeric entries — strings, lists, booleans — are not inspected by
any embedded computation and are not modelled). -/
abbrev Evidence := List (String × ℚ)

/-- `evidence.get(key, default)` over the numeric entries. -/
def evGet (ev : Evidence) (k : String) (d : ℚ) : ℚ :=
  match ev.find? (fun p => p.1 = k) with
  | some p => p.2
  | none => d

/-- `evidence[key]` as an optional value. -/
def evFind (ev : Evidence) (k : String) : Option ℚ :=
  (ev.find? (fun p => p.1 = k)).map (fun p => p.2)

/-- An alert record (the fields of `TypologyDetector._create_alert`;
`typology_type` carries the enum's `.value` string). -/
structure Alert where
  alert_id : String
  address : String
  typology_type : String
  confidence_score : ℚ
  severity : String
  suspected_address_type : String
  description : String := ""
  volume_usd : ℚ
  related_addresses : List String := []
  evidence : Evidence := []
  risk_indicators : List String := []
deriving DecidableEq, Repr

/-- `TypologyDetector._calculate_simple_severity`. -/
def calculate_simple_severity (confidence : ℚ) : String :=
  if 9/10 ≤ confidence then "critical"
  else if 3/4 ≤ confidence then "high"
  else if 3/5 ≤ confidence then "medium"
  else "low"

/-- `TypologyDetector._infer_simple_address_type`. -/
def infer_simple_address_type (typ : String) (ev : Evidence)
    (risk_indicators : List String) : String :=
  if typ = "MIXING_BEHAVIOR" then "unknown"
  else if typ = "FRESH_TO_EXCHANGE" then "wallet"
  else if typ = "HUB_ANOMALY" then
    (if 1000000 < evGet ev "volume_usd" 0 then "institutional" else "unknown")
  else if typ = "PEEL_CHAIN" || typ = "RAPID_FANOUT" then
    (if 500000 < evGet ev "volume_usd" 0 then "merchant" else "wallet")
  else if typ = "STRUCTURING" then
    (if "below_threshold" ∈ risk_indicators then "wallet" else "unknown")
  else if typ = "PING_PONG" || typ = "VELOCITY_ANOMALY" then "wallet"
  else if typ = "CYCLE_DETECTION" then "unknown"
  else if typ = "LAYERING_PATH" then "unknown"
  else if typ = "SMURFING_NETWORK" then "wallet"
  else if typ = "PROXIMITY_RISK" then "unknown"
  else if typ = "MOTIF_FANIN" || typ = "MOTIF_FANOUT" then
    (if 50 < evGet ev "motif_participant_count" 0 then "institutional" else "wallet")
  else "unknown"

/-- `TypologyDetector._create_alert`: the alert id is
`str(uuid.uuid5(uuid.NAMESPACE_DNS, f"{address}-{typology_type.value}-{processing_date}"))`;
`volume_usd` is the first present key among `volume_usd`, `cycle_volume_usd`,
`path_volume_usd`, `evidence_volume_usd`. -/
def create_alert (processing_date address typ : String) (confidence : ℚ)
    (evidence : Evidence) (risk_indicators : List String) (description : String)
    (related_addresses : List String) : Alert :=
  let volume :=
    match evFind evidence "volume_usd" with
    | some v => v
    | none =>
      match evFind evidence "cycle_volume_usd" with
      | some v => v
      | none =>
        match evFind evidence "path_volume_usd" with
        | some v => v
        | none =>
          match evFind evidence "evidence_volume_usd" with
          | some v => v
          | none => 0
  { alert_id := uuid5 namespaceDNS (address ++ "-" ++ typ ++ "-" ++ processing_date)
    address := address
    typology_type := typ
    confidence_score := confidence
    severity := calculate_simple_severity confidence
    suspected_address_type := infer_simple_address_type typ evidence risk_indicators
    description := description
    volume_usd := volume
    related_addresses := related_addresses
    evidence := evidence
    risk_indicators := risk_indicators }

/-- The `peel_chain` section of the typology configuration. -/
structure PeelChainConfig where
  min_recipients : ℚ
  min_volume_usd : ℚ
deriving DecidableEq, Repr

/-- `TypologyDetector._detect_peel_chain`.  The `int()`/`float()` coercions of
the source are identities in the rational model; note that the `deg/20` term
carries no inner `min(·,1)` and that the emission test is the strict
`confidence > 0.6`. -/
def detect_peel_chain (cfg : PeelChainConfig) (processing_date address : String)
    (degree_total volume_usd burst_factor : ℚ) : Option Alert :=
  if cfg.min_recipients ≤ degree_total ∧ cfg.min_volume_usd ≤ volume_usd ∧
     burst_factor < 3/10 then
    let confidence := min
      ((degree_total / 20) * (2/5) + (min (volume_usd / 50000) 1) * (3/10) +
       (1 - burst_factor) * (3/10)) 1
    if 3/5 < confidence then
      some (create_alert processing_date address "PEEL_CHAIN" confidence
        [("degree_out", degree_total), ("volume_usd", volume_usd),
         ("burst_factor", burst_factor)]
        ["long_chain", "sequential_transfers", "low_branching"]
        "Peel chain detected" [])
    else none
  else none

/-- The pattern-type → typology mapping of
`TypologyDetector._create_alert_from_structural_pattern`. -/
def typology_for_pattern (pt : String) : Option String :=
  if pt = "cycle" then some "CYCLE_DETECTION"
  else if pt = "layering_path" then some "LAYERING_PATH"
  else if pt = "smurfing_network" then some "SMURFING_NETWORK"
  else if pt = "proximity_risk" then some "PROXIMITY_RISK"
  else if pt = "motif_fanin" then some "MOTIF_FANIN"
  else if pt = "motif_fanout" then some "MOTIF_FANOUT"
  else none

/-- The numeric evidence entries assembled by
`_create_alert_from_structural_pattern` (base scores, the per-type payload,
then the common evidence fields). -/
def structuralEvidence (p : Pattern) : Evidence :=
  [("severity_score", p.severity_score), ("risk_score", p.risk_score)] ++
  (if p.pattern_type = "cycle" then
    [("cycle_length", (p.cycle_length : ℚ)), ("cycle_volume_usd", p.cycle_volume_usd)]
  else if p.pattern_type = "layering_path" then
    [("path_depth", (p.path_depth : ℚ)), ("path_volume_usd", p.path_volume_usd)]
  else if p.pattern_type = "smurfing_network" then
    [("network_size", (p.network_size : ℚ)), ("network_density", p.network_density)]
  else if p.pattern_type = "proximity_risk" then
    [("distance_to_risk", (p.distance_to_risk : ℚ)),
     ("risk_propagation_score", p.risk_propagation_score)]
  else if p.pattern_type = "motif_fanin" || p.pattern_type = "motif_fanout" then
    [("motif_participant_count", (p.motif_participant_count : ℚ))]
  else []) ++
  [("evidence_transaction_count", (p.evidence_transaction_count : ℚ)),
   ("evidence_volume_usd", p.evidence_volume_usd),
   ("anomaly_score", p.anomaly_score)]

/-- The risk-indicator tags per pattern type in
`_create_alert_from_structural_pattern`. -/
def structuralRiskIndicators (p : Pattern) : List String :=
  if p.pattern_type = "cycle" then
    ["money_laundering_cycle", "circular_flow", "fund_obfuscation"]
  else if p.pattern_type = "layering_path" then
    ["layering_scheme", "multi_hop_transfer", "fund_obfuscation"]
  else if p.pattern_type = "smurfing_network" then
    ["smurfing_network", "coordinated_transfers", "threshold_evasion"]
  else if p.pattern_type = "proximity_risk" then
    ["proximity_to_risk", "risk_contamination", "guilt_by_association"]
  else if p.pattern_type = "motif_fanin" || p.pattern_type = "motif_fanout" then
    (if p.motif_type = "fanin" then
      ["concentration_pattern", "fund_collection", "aggregation_behavior"]
    else ["distribution_pattern", "fund_dispersal", "broadcasting_behavior"])
  else ["structural_anomaly"]

/-- `TypologyDetector._create_alert_from_structural_pattern`: one alert per
involved address, each with confidence
`max(confidence_score, risk_score, severity_score)` and the other involved
addresses as related. -/
def create_alert_from_structural_pattern (processing_date : String) (p : Pattern) :
    List Alert :=
  if p.pattern_type = "" ∨ p.addresses_involved = [] then []
  else
    match typology_for_pattern p.pattern_type with
    | none => []
    | some typ =>
        let evidence := structuralEvidence p
        let risk_indicators := structuralRiskIndicators p
        let alert_confidence := max (max p.confidence_score p.risk_score) p.severity_score
        p.addresses_involved.map (fun address =>
          create_alert processing_date address typ alert_confidence evidence
            risk_indicators "Structural pattern detected"
            (p.addresses_involved.filter (fun a => a ≠ address)))

/-- An alert cluster (`TypologyDetector._cluster_by_same_entity`). -/
structure AlertCluster where
  cluster_id : String
  cluster_type : String
  primary_alert_id : String
  related_alert_ids : List String
  addresses_involved : List String
  total_alerts : ℕ
  total_volume_usd : ℚ
  severity_max : String
  confidence_avg : ℚ
deriving DecidableEq, Repr

/-- The `severity_order` dict of `_cluster_by_same_entity` (`.get` default 0). -/
def severityOrder (s : String) : ℕ :=
  if s = "low" then 1
  else if s = "medium" then 2
  else if s = "high" then 3
  else if s = "critical" then 4
  else 0

/-- Python's `max(xs, key=f)`: the first element attaining the maximum. -/
def pyMaxBy (f : Alert → ℕ) (a0 : Alert) (rest : List Alert) : Alert :=
  rest.foldl (fun best x => if f best < f x then x else best) a0

/-- `TypologyDetector._cluster_by_same_entity`: group the alerts by address
(skipping falsy addresses), emit one cluster per address with at least
`min_alerts` alerts; `total_volume_usd` is taken from the first alert,
`severity_max` by the ordinal `low < medium < high < critical`, and
`confidence_avg` is the arithmetic mean. -/
def cluster_by_same_entity (min_alerts : ℕ) (processing_date : String)
    (alerts : List Alert) : List AlertCluster :=
  if alerts = [] then []
  else
    let valid := alerts.filter (fun a => a.address ≠ "")
    (dedupKeepFirst (valid.map (fun a => a.address))).filterMap (fun address =>
      let address_alerts := valid.filter (fun a => a.address = address)
      if min_alerts ≤ address_alerts.length then
        match address_alerts with
        | [] => none
        | a0 :: rest =>
            some { cluster_id := "cluster_same_entity_" ++ address ++ "_" ++ processing_date
                   cluster_type := "same_entity"
                   primary_alert_id := a0.alert_id
                   related_alert_ids := (a0 :: rest).map (fun a => a.alert_id)
                   addresses_involved := [address]
                   total_alerts := (a0 :: rest).length
                   total_volume_usd := a0.volume_usd
                   severity_max := (pyMaxBy (fun a => severityOrder a.severity) a0 rest).severity
                   confidence_avg := (((a0 :: rest).map (fun a => a.confidence_score)).sum) /
                     (((a0 :: rest).length : ℚ)) }
      else none)

/-! ## Concrete fixtures used by the counterexamples and witnesses -/

/-- A first high-risk cycle pattern over `X, Y, Z` (as read back from the
pattern store by the typology stage). -/
def cyclePatternXYZ : Pattern :=
  { pattern_id := "cycle_aaaaaaaaaaaaaaaa"
    pattern_type := "cycle"
    pattern_hash := "aaaaaaaaaaaaaaaa"
    addresses_involved := ["X", "Y", "Z"]
    address_roles := ["participant", "participant", "participant"]
    severity_score := 2/5
    confidence_score := 1/2
    risk_score := 3/5
    cycle_path := ["X", "Y", "Z"]
    cycle_length := 3
    cycle_volume_usd := 33000
    evidence_transaction_count := 3
    evidence_volume_usd := 33000
    detection_method := "cycle_detection" }

/-- A second high-risk cycle pattern sharing address `X`. -/
def cyclePatternXUV : Pattern :=
  { pattern_id := "cycle_bbbbbbbbbbbbbbbb"
    pattern_type := "cycle"
    pattern_hash := "bbbbbbbbbbbbbbbb"
    addresses_involved := ["X", "U", "V"]
    address_roles := ["participant", "participant", "participant"]
    severity_score := 2/5
    confidence_score := 1/2
    risk_score := 3/5
    cycle_path := ["X", "U", "V"]
    cycle_length := 3
    cycle_volume_usd := 12000
    evidence_transaction_count := 3
    evidence_volume_usd := 12000
    detection_method := "cycle_detection" }

/-- The structural-pattern fan-out alerts of the two cycle patterns: two
`CYCLE_DETECTION` alerts for `X` (one per pattern) plus one per other member. -/
def alertsTwoCycles : List Alert :=
  create_alert_from_structural_pattern "2024-01-01" cyclePatternXYZ ++
  create_alert_from_structural_pattern "2024-01-01" cyclePatternXUV

/-- A two-node cycle graph `a ⇄ b` (unit amounts). -/
def gTwoCycle : DiGraph :=
  ⟨[{ src := "a", dst := "b", weight := 1, tx_count := 1, amount_usd_sum := 1 },
    { src := "b", dst := "a", weight := 1, tx_count := 1, amount_usd_sum := 1 }]⟩

/-- An SCC configuration with `min_scc_size = 2` and `anomaly_threshold = 0`,
so the single SCC of `gTwoCycle` is always reported. -/
def sccCfgAB : SccConfig :=
  { min_scc_size := 2, z_score_normalization := 1, anomaly_threshold := 0,
    confidence_score := 1/2, risk_score_multiplier := 1 }

/-- Severity adjustments with factors 1/2. -/
def sevCfgHalf : SeverityConfig := { trust_reduction_factor := 1/2, fraud_increase_factor := 1/2 }

/-- The pattern `_analyze_scc` emits for `gTwoCycle` under `sccCfgAB`: note
the `scc_` prefix of `pattern_id` against `pattern_type = smurfing_network`. -/
def sccPatternAB : Pattern :=
  { pattern_id := generate_pattern_id "scc" (generate_pattern_hash "smurfing_network" ["a", "b"])
    pattern_type := "smurfing_network"
    pattern_subtype := some "anomalous_scc"
    pattern_hash := generate_pattern_hash "smurfing_network" ["a", "b"]
    addresses_involved := ["a", "b"]
    address_roles := ["participant", "participant"]
    severity_score := 0
    confidence_score := 1/2
    risk_score := 0
    network_members := ["a", "b"]
    network_size := 2
    network_density := 1
    evidence_transaction_count := 2
    evidence_volume_usd := 2
    detection_method := "scc_analysis"
    anomaly_score := 0 }

/-- A one-edge graph from a sanctioned-type address `RISK` to `A`. -/
def gRiskA : DiGraph :=
  ⟨[{ src := "RISK", dst := "A", weight := 10, tx_count := 1, amount_usd_sum := 10 }]⟩

/-- Labels marking `RISK` as a scam address. -/
def labelsRisk : LabelsCache := [("RISK", { address_type := some "scam" })]

/-- A proximity configuration with `max_distance = 1`, `base_severity = 1/2`
and decay factor 1. -/
def proxCfg1 : ProximityConfig :=
  { max_distance := 1, confidence_score := 3/4, base_severity := 1/2,
    distance_decay_factor := 1 }

/-- A risk-identification heuristic configuration (unused when labelled
fraudulent addresses exist). -/
def riskCfg0 : RiskConfig := { high_volume_threshold := 0, high_degree_threshold := 0 }

/-- The pattern the proximity detector emits for `gRiskA`: the severity
adjustment is applied to the suspect `A` alone, so the scam label of `RISK`
does not amplify it. -/
def proxPatternRA : Pattern :=
  { pattern_id := generate_pattern_id "proximity_risk"
      (generate_pattern_hash "proximity_risk" ["RISK", "A"])
    pattern_type := "proximity_risk"
    pattern_hash := generate_pattern_hash "proximity_risk" ["RISK", "A"]
    addresses_involved := ["RISK", "A"]
    address_roles := ["risk_source", "suspect"]
    severity_score := 1/4
    confidence_score := 3/4
    risk_score := 1/4
    risk_source_address := "RISK"
    distance_to_risk := 1
    risk_propagation_score := 1/2
    evidence_transaction_count := 1
    evidence_volume_usd := 10
    detection_method := "proximity_analysis"
    anomaly_score := 1/4 }

/-- A one-edge graph `T → B` with a single transaction of 9 USD. -/
def gThresh : DiGraph :=
  ⟨[{ src := "T", dst := "B", weight := 9, tx_count := 1, amount_usd_sum := 9 }]⟩

/-- A threshold configuration with a 10 USD reporting threshold, a near-range
of 80%→[1/2, 1], and permissive gates so that the one 9-USD transaction of
`gThresh` qualifies. -/
def threshCfgT : ThresholdConfig :=
  { reporting_threshold_usd := some 10, custom_thresholds := [],
    min_transactions_near_threshold := 1, clustering_score_threshold := 0,
    size_consistency_threshold := 0, confidence_score := 4/5, risk_score_multiplier := 1,
    near_threshold_lower_pct := 1/2, near_threshold_upper_pct := 1,
    clustering_severity_weight := 1, consistency_severity_weight := 0,
    temporal_severity_weight := 0 }

/-- The evasion analysis of node `T` in `gThresh` under `threshCfgT`. -/
def evT : EvasionInfo :=
  { transactions_near_threshold := 1, avg_transaction_size := 9, max_transaction_size := 9,
    size_consistency := 1, clustering_score := 1, unique_days := 1,
    avg_daily_transactions := 1, temporal_spread_score := 1/2,
    threshold_avoidance_score := 1 }

/-- The pattern the threshold detector emits for `gThresh`: the hash is taken
over `[node, threshold_type, str(threshold_value)]`, not over the
participants `["T"]`. -/
def thresholdPatternT : Pattern :=
  { pattern_id := generate_pattern_id "threshold_evasion"
      (generate_pattern_hash "threshold_evasion" ["T", "reporting", pyFloatStr 10])
    pattern_type := "threshold_evasion"
    pattern_hash := generate_pattern_hash "threshold_evasion" ["T", "reporting", pyFloatStr 10]
    addresses_involved := ["T"]
    address_roles := ["primary_address"]
    severity_score := 1
    confidence_score := 4/5
    risk_score := 1
    primary_address := "T"
    threshold_value := 10
    threshold_type := "reporting"
    transactions_near_threshold := 1
    avg_transaction_size := 9
    max_transaction_size := 9
    size_consistency := 1
    clustering_score := 1
    unique_days := 1
    avg_daily_transactions := 1
    temporal_spread_score := 1/2
    threshold_avoidance_score := 1
    evidence_transaction_count := 1
    evidence_volume_usd := 9
    detection_method := "temporal_analysis"
    anomaly_score := 1 }

/-! ## Generic helper lemmas -/

/-- A fold appending pattern records preserves any per-record predicate the
step establishes. -/
lemma foldl_preserve {α : Type} {P : Pattern → Prop}
    (f : List Pattern → α → List Pattern)
    (hf : ∀ acc x p, (∀ q ∈ acc, P q) → p ∈ f acc x → P p) :
    ∀ (l : List α) (acc : List Pattern), (∀ q ∈ acc, P q) → ∀ p ∈ l.foldl f acc, P p := by
  intro l
  induction l with
  | nil => intro acc h p hp; exact h p hp
  | cons x xs ih =>
      intro acc h p hp
      exact ih (f acc x) (fun q hq => hf acc x q h hq) p hp

/-- `foldl_preserve` for a fold whose state also carries a counter. -/
lemma foldl_preserve_pair {α : Type} {P : Pattern → Prop}
    (f : (List Pattern × ℕ) → α → (List Pattern × ℕ))
    (hf : ∀ st x p, (∀ q ∈ st.1, P q) → p ∈ (f st x).1 → P p) :
    ∀ (l : List α) (st : List Pattern × ℕ), (∀ q ∈ st.1, P q) → ∀ p ∈ (l.foldl f st).1, P p := by
  intro l
  induction l with
  | nil => intro st h p hp; exact h p hp
  | cons x xs ih =>
      intro st h p hp
      exact ih (f st x) (fun q hq => hf st x q h hq) p hp

/-- The severity adjustment only depends on the multiset of participants. -/
lemma adjust_severity_perm (cfg : SeverityConfig) (labels : LabelsCache) (b : ℚ)
    {l1 l2 : List String} (h : l1.Perm l2) :
    adjust_severity_for_trust cfg labels b l1 = adjust_severity_for_trust cfg labels b l2 := by
  unfold adjust_severity_for_trust
  rcases eq_or_ne l1 [] with rfl | hne
  · rw [List.Perm.eq_nil h.symm]
  · have hne2 : l2 ≠ [] := fun h2 => hne (List.Perm.eq_nil (h2 ▸ h))
    rw [if_neg hne, if_neg hne2, h.countP_eq, h.countP_eq, h.length_eq]

/-- The severity adjustment of an empty participant list is the base value. -/
lemma adjust_severity_nil (cfg : SeverityConfig) (labels : LabelsCache) (b : ℚ) :
    adjust_severity_for_trust cfg labels b [] = b := by
  unfold adjust_severity_for_trust
  rw [if_pos rfl]

/-- The severity adjustment of a non-empty participant list is clipped at 1. -/
lemma adjust_severity_le_one (cfg : SeverityConfig) (labels : LabelsCache) (b : ℚ)
    {l : List String} (hne : l ≠ []) :
    adjust_severity_for_trust cfg labels b l ≤ 1 := by
  unfold adjust_severity_for_trust
  rw [if_neg hne]
  exact min_le_right _ _

/-- The SCC base anomaly score never exceeds 1. -/
lemma scc_base_score_le_one (sqrtA : ℚ → ℚ) (scc_cfg : SccConfig) (g : DiGraph) (sz : ℕ) :
    scc_base_score sqrtA scc_cfg g sz ≤ 1 := by
  unfold scc_base_score
  split
  · exact min_le_right _ _
  · norm_num

/-- Membership filters only depend on the membership of the reference list. -/
lemma filter_mem_perm {c1 c2 : List String} (h : c1.Perm c2) (l : List String) :
    l.filter (fun v => v ∈ c1) = l.filter (fun v => v ∈ c2) := by
  refine List.filter_congr (fun x _ => ?_)
  simp only [decide_eq_decide]
  exact h.mem_iff

/-- Induced subgraphs only depend on the membership of the node list. -/
lemma subgraphEdges_perm {c1 c2 : List String} (h : c1.Perm c2) (g : DiGraph) :
    subgraphEdges g c1 = subgraphEdges g c2 := by
  refine List.filter_congr (fun e _ => ?_)
  have b1 : decide (e.src ∈ c1) = decide (e.src ∈ c2) := by
    simp only [decide_eq_decide]
    exact h.mem_iff
  have b2 : decide (e.dst ∈ c1) = decide (e.dst ∈ c2) := by
    simp only [decide_eq_decide]
    exact h.mem_iff
  rw [b1, b2]

/-- A smurfing-positive community subgraph has at least one edge. -/
lemma is_smurfing_edges_ne (cfg : NetworkConfig) (n : ℕ) (edges : List GraphEdge)
    (h : is_smurfing_network cfg n edges = true) : edges ≠ [] := by
  intro hnil
  subst hnil
  unfold is_smurfing_network at h
  split at h
  · exact Bool.false_ne_true h
  · simp at h

/-- A community with a non-empty induced subgraph is non-empty. -/
lemma community_ne_of_subgraph_ne {g : DiGraph} {c : List String}
    (h : subgraphEdges g c ≠ []) : c ≠ [] := by
  intro hnil
  subst hnil
  exact h (by simp [subgraphEdges])

/-- A left fold whose step ignores the element is the identity. -/
lemma foldl_ignore {α β : Type} (l : List α) (b : β) :
    l.foldl (fun acc _ => acc) b = b := by
  induction l generalizing b with
  | nil => rfl
  | cons x xs ih => exact ih b

/-- `List.find?_cons_of_pos` with the predicate explicit. -/
lemma find?_cons_pos {α} (p : α → Bool) (a : α) (l : List α) (h : p a = true) :
    (a :: l).find? p = some a := List.find?_cons_of_pos l h

/-- `List.find?_cons_of_neg` with the predicate explicit. -/
lemma find?_cons_neg {α} (p : α → Bool) (a : α) (l : List α) (h : ¬ p a = true) :
    (a :: l).find? p = l.find? p := List.find?_cons_of_neg l h

/-- Replacing every pair-matching edge by `e` and then searching for that
pair finds `e`, provided some edge matched. -/
lemma find?_map_replace (l : List GraphEdge) (e : GraphEdge)
    (h : l.any (fun e' => e'.src = e.src && e'.dst = e.dst) = true) :
    (l.map (fun e' => if e'.src = e.src && e'.dst = e.dst then e else e')).find?
      (fun e' => e'.src = e.src && e'.dst = e.dst) = some e := by
  induction l with
  | nil => simp at h
  | cons x xs ih =>
      by_cases hx : (x.src = e.src && x.dst = e.dst) = true
      · simp only [List.map_cons, if_pos hx]
        exact find?_cons_pos (fun e' : GraphEdge => e'.src = e.src && e'.dst = e.dst) _ _ (by simp)
      · have hx0 : (x.src = e.src && x.dst = e.dst) = false := by simpa using hx
        simp only [List.any_cons, hx0, Bool.false_or] at h
        simp only [List.map_cons, if_neg hx]
        exact (find?_cons_neg (fun e' : GraphEdge => e'.src = e.src && e'.dst = e.dst) _ _ hx).trans (ih h)

/-- Searching for a different pair is unaffected by the in-place replacement. -/
lemma find?_map_replace_ne (l : List GraphEdge) (e : GraphEdge) (u v : String)
    (hne : ¬(u = e.src ∧ v = e.dst)) :
    (l.map (fun e' => if e'.src = e.src && e'.dst = e.dst then e else e')).find?
      (fun e' => e'.src = u && e'.dst = v) =
    l.find? (fun e' => e'.src = u && e'.dst = v) := by
  induction l with
  | nil => rfl
  | cons x xs ih =>
      by_cases hx : (x.src = e.src && x.dst = e.dst) = true
      · have hx' : x.src = e.src ∧ x.dst = e.dst := by
          simpa only [Bool.and_eq_true, decide_eq_true_eq] using hx
        have hxe : ¬(x.src = u && x.dst = v) = true := fun hc => by
          simp only [Bool.and_eq_true, decide_eq_true_eq] at hc
          exact hne ⟨hc.1 ▸ hx'.1, hc.2 ▸ hx'.2⟩
        have hee : ¬(e.src = u && e.dst = v) = true := fun hc => by
          simp only [Bool.and_eq_true, decide_eq_true_eq] at hc
          exact hne ⟨hc.1.symm, hc.2.symm⟩
        simp only [List.map_cons, if_pos hx]
        exact ((find?_cons_neg (fun e' : GraphEdge => e'.src = u && e'.dst = v) _ _ hee).trans ih).trans
          (find?_cons_neg (fun e' : GraphEdge => e'.src = u && e'.dst = v) _ _ hxe).symm
      · simp only [List.map_cons, if_neg hx]
        by_cases hxp : (x.src = u && x.dst = v) = true
        · exact (find?_cons_pos (fun e' : GraphEdge => e'.src = u && e'.dst = v) _ _ hxp).trans
            (find?_cons_pos (fun e' : GraphEdge => e'.src = u && e'.dst = v) _ _ hxp).symm
        · exact ((find?_cons_neg (fun e' : GraphEdge => e'.src = u && e'.dst = v) _ _ hxp).trans ih).trans
            (find?_cons_neg (fun e' : GraphEdge => e'.src = u && e'.dst = v) _ _ hxp).symm

/-- Appending an edge to a list with no matching pair: the search finds the
appended edge. -/
lemma find?_append_single (l : List GraphEdge) (e : GraphEdge)
    (h : ¬ l.any (fun e' => e'.src = e.src && e'.dst = e.dst) = true) :
    (l ++ [e]).find? (fun e' => e'.src = e.src && e'.dst = e.dst) = some e := by
  induction l with
  | nil => simp
  | cons x xs ih =>
      simp only [List.any_cons, Bool.or_eq_true, not_or] at h
      rw [List.cons_append]
      exact (find?_cons_neg (fun e' : GraphEdge => e'.src = e.src && e'.dst = e.dst)
        _ _ h.1).trans (ih h.2)

/-- After `add_edge`, the ordered pair of the inserted edge maps to it. -/
lemma findEdge_addEdge_self (g : DiGraph) (e : GraphEdge) :
    (g.addEdge e).findEdge e.src e.dst = some e := by
  unfold DiGraph.addEdge DiGraph.findEdge
  split
  case isTrue h => exact find?_map_replace g.edges e h
  case isFalse h => exact find?_append_single g.edges e h

/-- After `add_edge`, every other ordered pair maps to what it mapped to
before. -/
lemma findEdge_addEdge_ne (g : DiGraph) (e : GraphEdge) (u v : String)
    (hne : ¬(u = e.src ∧ v = e.dst)) :
    (g.addEdge e).findEdge u v = g.findEdge u v := by
  unfold DiGraph.addEdge DiGraph.findEdge
  split
  case isTrue _ => exact find?_map_replace_ne g.edges e u v hne
  case isFalse _ =>
      have hee : ¬(e.src = u && e.dst = v) = true := fun hc => by
        simp only [Bool.and_eq_true, decide_eq_true_eq] at hc
        exact hne ⟨hc.1.symm, hc.2.symm⟩
      induction g.edges with
      | nil => exact find?_cons_neg (fun e' : GraphEdge => e'.src = u && e'.dst = v) _ _ hee
      | cons x xs ih =>
          rw [List.cons_append]
          by_cases hxp : (x.src = u && x.dst = v) = true
          · exact (find?_cons_pos (fun e' : GraphEdge => e'.src = u && e'.dst = v) _ _ hxp).trans
              (find?_cons_pos (fun e' : GraphEdge => e'.src = u && e'.dst = v) _ _ hxp).symm
          · exact ((find?_cons_neg (fun e' : GraphEdge => e'.src = u && e'.dst = v) _ _ hxp).trans ih).trans
              (find?_cons_neg (fun e' : GraphEdge => e'.src = u && e'.dst = v) _ _ hxp).symm

/-- The graph builder's edge map: the edge stored for an ordered pair is the
image of the last flow row carrying that pair (and absent pairs have no
edge).  In particular duplicated ordered pairs silently overwrite. -/
lemma build_findEdge (flows : List Flow) (u v : String) :
    (build_graph_from_flows_data flows).findEdge u v =
      ((flows.filter (fun f => f.from_address = u && f.to_address = v)).getLast?).map
        flowToEdge := by
  induction flows using List.reverseRecOn with
  | nil => rfl
  | append_singleton fs f ih =>
      have hb : build_graph_from_flows_data (fs ++ [f]) =
          (build_graph_from_flows_data fs).addEdge (flowToEdge f) := by
        unfold build_graph_from_flows_data
        rw [List.foldl_append]
        rfl
      rw [hb, List.filter_append]
      by_cases hp : u = f.from_address ∧ v = f.to_address
      · obtain ⟨hu, hv⟩ := hp
        subst hu; subst hv
        have hfilter : List.filter
            (fun f' => f'.from_address = f.from_address && f'.to_address = f.to_address)
            [f] = [f] := by simp
        rw [hfilter, List.getLast?_concat]
        exact findEdge_addEdge_self (build_graph_from_flows_data fs) (flowToEdge f)
      · have hpf : (f.from_address = u && f.to_address = v) = false := by
          refine Bool.eq_false_iff.mpr (fun hc => ?_)
          simp only [Bool.and_eq_true, decide_eq_true_eq] at hc
          exact hp ⟨hc.1.symm, hc.2.symm⟩
        have hfilter : List.filter
            (fun f' => f'.from_address = u && f'.to_address = v) [f] = [] := by
          simp [List.filter, hpf]
        rw [hfilter, List.append_nil]
        exact (findEdge_addEdge_ne (build_graph_from_flows_data fs) (flowToEdge f) u v hp).trans ih

/-- Membership survives deduplication (forward direction). -/
lemma mem_of_mem_dedupFirstAux {α} [DecidableEq α] {x : α} :
    ∀ {l seen : List α}, x ∈ dedupFirstAux l seen → x ∈ l := by
  intro l
  induction l with
  | nil => intro seen h; simp [dedupFirstAux] at h
  | cons y ys ih =>
      intro seen h
      unfold dedupFirstAux at h
      split at h
      · exact List.mem_cons_of_mem _ (ih h)
      · rcases List.mem_cons.mp h with h | h
        · exact h ▸ List.mem_cons_self _ _
        · exact List.mem_cons_of_mem _ (ih h)

/-- The ordinal of the alert Python's `max(…, key=…)` picks is the maximum
ordinal of the group. -/
lemma pyMaxBy_spec (f : Alert → ℕ) :
    ∀ (rest : List Alert) (a0 : Alert),
      f (pyMaxBy f a0 rest) = rest.foldl (fun m x => max m (f x)) (f a0) := by
  intro rest
  induction rest with
  | nil => intro a0; rfl
  | cons x xs ih =>
      intro a0
      rw [List.foldl_cons]
      show f (pyMaxBy f (if f a0 < f x then x else a0) xs) = _
      rw [ih]
      congr 1
      split
      case isTrue h => exact (Nat.max_eq_right (Nat.le_of_lt h)).symm
      case isFalse h => exact (Nat.max_eq_left (Nat.le_of_not_lt h)).symm

/-- Folding `max` over mapped ordinals, started at 0, equals the running
maximum started at the head. -/
lemma foldl_max_map (f : Alert → ℕ) (a0 : Alert) (rest : List Alert) :
    ((a0 :: rest).map f).foldl max 0 = rest.foldl (fun m x => max m (f x)) (f a0) := by
  simp only [List.map_cons, List.foldl_cons, Nat.zero_max, List.foldl_map]

/-- Deduplication keeps every element not yet seen. -/
lemma mem_dedupFirstAux_of_mem {α} [DecidableEq α] {x : α} :
    ∀ {l seen : List α}, x ∈ l → x ∉ seen → x ∈ dedupFirstAux l seen := by
  intro l
  induction l with
  | nil => intro seen h _; exact absurd h (List.not_mem_nil x)
  | cons y ys ih =>
      intro seen h hseen
      unfold dedupFirstAux
      split
      case isTrue hy =>
          rcases List.mem_cons.mp h with h | h
          · exact absurd (h ▸ hy) hseen
          · exact ih h hseen
      case isFalse hy =>
          rcases List.mem_cons.mp h with h | h
          · exact h ▸ List.mem_cons_self _ _
          · by_cases hxy : x = y
            · exact hxy ▸ List.mem_cons_self _ _
            · exact List.mem_cons_of_mem _ (ih h (by
                intro hmem
                rcases List.mem_cons.mp hmem with hmem | hmem
                · exact hxy hmem
                · exact hseen hmem))

/-- For a non-empty address, filtering the falsy-address cleanup then the
address group is the same as filtering the address group directly. -/
lemma filter_valid_address (alerts : List Alert) (a : String) (ha : a ≠ "") :
    (alerts.filter (fun x => x.address ≠ "")).filter (fun x => x.address = a) =
      alerts.filter (fun x => x.address = a) := by
  induction alerts with
  | nil => rfl
  | cons x xs ih =>
      by_cases hx : x.address = a
      · have hne : x.address ≠ "" := fun h => ha (hx ▸ h)
        simp only [List.filter_cons, decide_eq_true_eq]
        rw [if_pos (by simpa using hne), List.filter_cons, if_pos (by simpa using hx),
          if_pos (by simpa using hx)]
        rw [ih]
      · by_cases hb : x.address = ""
        · have hnn : ¬ x.address ≠ "" := fun h => h hb
          simp only [List.filter_cons]
          rw [if_neg (by simpa using hnn), if_neg (by simpa using hx)]
          exact ih
        · simp only [List.filter_cons]
          rw [if_pos (by simpa using hb), List.filter_cons, if_neg (by simpa using hx),
            if_neg (by simpa using hx)]
          exact ih

/-- Every pattern `_analyze_scc` emits: `smurfing_network` type, canonical
hash over the sorted members, the `scc_`-prefixed id, and a severity that is
the trust adjustment of the SCC base score over the participants, clipped. -/
lemma analyze_scc_shape (sqrtA : ℚ → ℚ) (scc_cfg : SccConfig) (sev_cfg : SeverityConfig)
    (labels : LabelsCache) (g : DiGraph) :
    ∀ p ∈ analyze_scc sqrtA scc_cfg sev_cfg labels g,
      p.pattern_type = "smurfing_network" ∧
      p.pattern_hash = generate_pattern_hash "smurfing_network" p.addresses_involved ∧
      p.pattern_id = generate_pattern_id "scc" p.pattern_hash ∧
      p.severity_score = adjust_severity_for_trust sev_cfg labels
        (scc_base_score sqrtA scc_cfg g p.network_size) p.addresses_involved ∧
      p.severity_score ≤ 1 := by
  intro p hp
  unfold analyze_scc at hp
  split at hp
  · exact absurd hp (List.not_mem_nil p)
  · refine @foldl_preserve _
      (fun q => q.pattern_type = "smurfing_network" ∧
        q.pattern_hash = generate_pattern_hash "smurfing_network" q.addresses_involved ∧
        q.pattern_id = generate_pattern_id "scc" q.pattern_hash ∧
        q.severity_score = adjust_severity_for_trust sev_cfg labels
          (scc_base_score sqrtA scc_cfg g q.network_size) q.addresses_involved ∧
        q.severity_score ≤ 1)
      _ ?_ (strongly_connected_components g) [] (by simp) p hp
    intro acc scc q hacc hq
    dsimp only at hq
    split at hq
    · exact hacc q hq
    · split at hq
      · exact hacc q hq
      · split at hq
        · exact hacc q hq
        · rcases List.mem_append.mp hq with hq | hq
          · exact hacc q hq
          · rcases List.mem_singleton.mp hq with rfl
            have hperm : (pySorted scc).Perm scc :=
              List.perm_insertionSort (fun a b => strLeB a b = true) scc
            refine ⟨by dsimp only, by dsimp only, by dsimp only, ?_, ?_⟩
            · dsimp only
              exact adjust_severity_perm sev_cfg labels _ hperm.symm
            · dsimp only
              rcases eq_or_ne scc [] with rfl | hne
              · rw [adjust_severity_nil]
                exact scc_base_score_le_one sqrtA scc_cfg g _
              · exact adjust_severity_le_one sev_cfg labels _ hne

/-- Every pattern `_detect_smurfing` emits: `smurfing_network` type, the
canonical hash and id over the sorted members, and a severity that is the
trust adjustment over the community members of the smurfing base severity,
clipped. -/
lemma detect_smurfing_shape (communities : List (List String)) (net_cfg : NetworkConfig)
    (sev_cfg : SeverityConfig) (labels : LabelsCache) (g : DiGraph) :
    ∀ p ∈ detect_smurfing communities net_cfg sev_cfg labels g,
      p.pattern_type = "smurfing_network" ∧
      p.pattern_hash = generate_pattern_hash "smurfing_network" p.addresses_involved ∧
      p.pattern_id = generate_pattern_id "smurfing_network" p.pattern_hash ∧
      p.severity_score = adjust_severity_for_trust sev_cfg labels
        (calculate_smurfing_severity net_cfg
          (g.nodes.filter (fun v => v ∈ p.addresses_involved)).length
          (subgraphEdges g p.addresses_involved)) p.addresses_involved ∧
      p.severity_score ≤ 1 := by
  intro p hp
  unfold detect_smurfing at hp
  refine @foldl_preserve _
    (fun q => q.pattern_type = "smurfing_network" ∧
      q.pattern_hash = generate_pattern_hash "smurfing_network" q.addresses_involved ∧
      q.pattern_id = generate_pattern_id "smurfing_network" q.pattern_hash ∧
      q.severity_score = adjust_severity_for_trust sev_cfg labels
        (calculate_smurfing_severity net_cfg
          (g.nodes.filter (fun v => v ∈ q.addresses_involved)).length
          (subgraphEdges g q.addresses_involved)) q.addresses_involved ∧
      q.severity_score ≤ 1)
    _ ?_ communities [] (by simp) p hp
  intro acc community q hacc hq
  dsimp only at hq
  split at hq
  · exact hacc q hq
  · split at hq
    · exact hacc q hq
    · rename_i hsm'
      split at hq
      · exact hacc q hq
      · rcases List.mem_append.mp hq with hq | hq
        · exact hacc q hq
        · rcases List.mem_singleton.mp hq with rfl
          have hsm : is_smurfing_network net_cfg
              (g.nodes.filter (fun v => v ∈ community)).length
              (subgraphEdges g community) = true := not_not.mp hsm'
          have hedges := is_smurfing_edges_ne _ _ _ hsm
          have hcomm := community_ne_of_subgraph_ne hedges
          have hperm : (pySorted community).Perm community :=
            List.perm_insertionSort (fun a b => strLeB a b = true) community
          refine ⟨by dsimp only, by dsimp only, by dsimp only, ?_, ?_⟩
          · dsimp only
            rw [filter_mem_perm hperm g.nodes, subgraphEdges_perm hperm g]
            exact adjust_severity_perm sev_cfg labels _ hperm.symm
          · dsimp only
            exact adjust_severity_le_one sev_cfg labels _ hcomm

/-- Every pattern `ProximityDetector.detect` emits: `proximity_risk` type,
the canonical hash and id, and a severity that is the trust adjustment of
`risk_propagation_score · base_severity` over the suspect (the second
involved address) alone, clipped. -/
lemma proximity_fold_shape (prox_cfg : ProximityConfig) (sev_cfg : SeverityConfig)
    (labels : LabelsCache) (g : DiGraph) (risk_addr : String) (acc : List Pattern)
    (hacc : ∀ q ∈ acc,
      q.pattern_type = "proximity_risk" ∧
      q.pattern_hash = generate_pattern_hash "proximity_risk" q.addresses_involved ∧
      q.pattern_id = generate_pattern_id "proximity_risk" q.pattern_hash ∧
      q.severity_score = adjust_severity_for_trust sev_cfg labels
        (q.risk_propagation_score * prox_cfg.base_severity)
        [q.addresses_involved.getD 1 ""] ∧
      q.severity_score ≤ 1) :
    ∀ p ∈ proximity_risk_fold prox_cfg sev_cfg labels g acc risk_addr,
      p.pattern_type = "proximity_risk" ∧
      p.pattern_hash = generate_pattern_hash "proximity_risk" p.addresses_involved ∧
      p.pattern_id = generate_pattern_id "proximity_risk" p.pattern_hash ∧
      p.severity_score = adjust_severity_for_trust sev_cfg labels
        (p.risk_propagation_score * prox_cfg.base_severity)
        [p.addresses_involved.getD 1 ""] ∧
      p.severity_score ≤ 1 := by
  intro p hp
  unfold proximity_risk_fold at hp
  refine @foldl_preserve _
    (fun q => q.pattern_type = "proximity_risk" ∧
      q.pattern_hash = generate_pattern_hash "proximity_risk" q.addresses_involved ∧
      q.pattern_id = generate_pattern_id "proximity_risk" q.pattern_hash ∧
      q.severity_score = adjust_severity_for_trust sev_cfg labels
        (q.risk_propagation_score * prox_cfg.base_severity)
        [q.addresses_involved.getD 1 ""] ∧
      q.severity_score ≤ 1)
    _ ?_ _ acc hacc p hp
  intro acc2 pr q2 hacc2 hq2
  dsimp only at hq2
  split at hq2
  · exact hacc2 q2 hq2
  · split at hq2
    · exact hacc2 q2 hq2
    · rcases List.mem_append.mp hq2 with hq2 | hq2
      · exact hacc2 q2 hq2
      · rcases List.mem_singleton.mp hq2 with rfl
        refine ⟨by dsimp only, by dsimp only, by dsimp only, by simp, ?_⟩
        dsimp only
        exact adjust_severity_le_one sev_cfg labels _ (by simp)

/-- Every pattern `ProximityDetector.detect` emits: `proximity_risk` type,
the canonical hash and id, and a severity that is the trust adjustment of
`risk_propagation_score · base_severity` over the suspect (the second
involved address) alone, clipped. -/
lemma proximity_detect_shape (prox_cfg : ProximityConfig) (risk_cfg : RiskConfig)
    (sev_cfg : SeverityConfig) (labels : LabelsCache) (g : DiGraph) :
    ∀ p ∈ proximity_detect prox_cfg risk_cfg sev_cfg labels g,
      p.pattern_type = "proximity_risk" ∧
      p.pattern_hash = generate_pattern_hash "proximity_risk" p.addresses_involved ∧
      p.pattern_id = generate_pattern_id "proximity_risk" p.pattern_hash ∧
      p.severity_score = adjust_severity_for_trust sev_cfg labels
        (p.risk_propagation_score * prox_cfg.base_severity)
        [p.addresses_involved.getD 1 ""] ∧
      p.severity_score ≤ 1 := by
  have hfold : ∀ (rl : List String),
      ∀ p ∈ rl.foldl (proximity_risk_fold prox_cfg sev_cfg labels g) [],
        p.pattern_type = "proximity_risk" ∧
        p.pattern_hash = generate_pattern_hash "proximity_risk" p.addresses_involved ∧
        p.pattern_id = generate_pattern_id "proximity_risk" p.pattern_hash ∧
        p.severity_score = adjust_severity_for_trust sev_cfg labels
          (p.risk_propagation_score * prox_cfg.base_severity)
          [p.addresses_involved.getD 1 ""] ∧
        p.severity_score ≤ 1 := by
    intro rl p hp
    refine @foldl_preserve _
      (fun q => q.pattern_type = "proximity_risk" ∧
        q.pattern_hash = generate_pattern_hash "proximity_risk" q.addresses_involved ∧
        q.pattern_id = generate_pattern_id "proximity_risk" q.pattern_hash ∧
        q.severity_score = adjust_severity_for_trust sev_cfg labels
          (q.risk_propagation_score * prox_cfg.base_severity)
          [q.addresses_involved.getD 1 ""] ∧
        q.severity_score ≤ 1)
      _ ?_ rl [] (by simp) p hp
    intro acc risk_addr q hacc hq
    exact proximity_fold_shape prox_cfg sev_cfg labels g risk_addr acc hacc q hq
  intro p hp
  unfold proximity_detect at hp
  dsimp only at hp
  split at hp
  case isTrue =>
    split at hp
    · exact absurd hp (List.not_mem_nil p)
    · exact hfold _ p hp
  case isFalse => exact hfold _ p hp

/-- Every pattern `CycleDetector.detect` emits: `cycle` type and the
canonical hash and id over the sorted cycle members. -/
lemma cycle_detect_shape (cfg : CycleConfig) (g : DiGraph) :
    ∀ p ∈ cycle_detect cfg g,
      p.pattern_type = "cycle" ∧
      p.pattern_hash = generate_pattern_hash "cycle" p.addresses_involved ∧
      p.pattern_id = generate_pattern_id "cycle" p.pattern_hash := by
  intro p hp
  unfold cycle_detect at hp
  refine @foldl_preserve _
    (fun q => q.pattern_type = "cycle" ∧
      q.pattern_hash = generate_pattern_hash "cycle" q.addresses_involved ∧
      q.pattern_id = generate_pattern_id "cycle" q.pattern_hash)
    _ ?_ _ [] (by simp) p hp
  intro acc scc q hacc hq
  split at hq
  · exact hacc q hq
  · refine @foldl_preserve_pair _
      (fun q => q.pattern_type = "cycle" ∧
        q.pattern_hash = generate_pattern_hash "cycle" q.addresses_involved ∧
        q.pattern_id = generate_pattern_id "cycle" q.pattern_hash)
      _ ?_ _ (acc, 0) hacc q hq
    intro st cyc q2 hst hq2
    dsimp only at hq2
    split at hq2
    · exact hst q2 hq2
    · split at hq2
      · exact hst q2 hq2
      · split at hq2
        · exact hst q2 hq2
        · rcases List.mem_append.mp hq2 with hq2 | hq2
          · exact hst q2 hq2
          · rcases List.mem_singleton.mp hq2 with rfl
            exact ⟨by dsimp only, by dsimp only, by dsimp only⟩

/-- Strict code-point order is asymmetric. -/
lemma charListLt_asymm : ∀ {a b : List Char}, charListLt a b = true → charListLt b a = false := by
  intro a
  induction a with
  | nil =>
      intro b h
      cases b with
      | nil => exact absurd h (by simp [charListLt])
      | cons d ds => rfl
  | cons c cs ih =>
      intro b h
      cases b with
      | nil => exact absurd h (by simp [charListLt])
      | cons d ds =>
          unfold charListLt at h ⊢
          by_cases hcd : c.toNat < d.toNat
          · rw [if_neg (show ¬ d.toNat < c.toNat by omega), if_pos hcd]
          · by_cases hdc : d.toNat < c.toNat
            · rw [if_neg hcd, if_pos hdc] at h
              exact absurd h (by simp)
            · rw [if_neg hcd, if_neg hdc] at h
              rw [if_neg hdc, if_neg hcd]
              exact ih h

/-- Strict code-point order is transitive. -/
lemma charListLt_trans : ∀ {a b c : List Char}, charListLt a b = true →
    charListLt b c = true → charListLt a c = true := by
  intro a
  induction a with
  | nil =>
      intro b c h1 h2
      cases b with
      | nil => exact absurd h1 (by simp [charListLt])
      | cons d ds =>
          cases c with
          | nil => exact absurd h2 (by simp [charListLt])
          | cons e es => rfl
  | cons x xs ih =>
      intro b c h1 h2
      cases b with
      | nil => exact absurd h1 (by simp [charListLt])
      | cons y ys =>
          cases c with
          | nil => exact absurd h2 (by simp [charListLt])
          | cons z zs =>
              unfold charListLt at h1 h2 ⊢
              by_cases hxy : x.toNat < y.toNat
              · by_cases hyz : y.toNat < z.toNat
                · rw [if_pos (show x.toNat < z.toNat by omega)]
                · by_cases hzy : z.toNat < y.toNat
                  · rw [if_neg hyz, if_pos hzy] at h2
                    exact absurd h2 (by simp)
                  · rw [if_pos (show x.toNat < z.toNat by omega)]
              · by_cases hyx : y.toNat < x.toNat
                · rw [if_neg hxy, if_pos hyx] at h1
                  exact absurd h1 (by simp)
                · rw [if_neg hxy, if_neg hyx] at h1
                  by_cases hyz : y.toNat < z.toNat
                  · rw [if_pos (show x.toNat < z.toNat by omega)]
                  · by_cases hzy : z.toNat < y.toNat
                    · rw [if_neg hyz, if_pos hzy] at h2
                      exact absurd h2 (by simp)
                    · rw [if_neg hyz, if_neg hzy] at h2
                      rw [if_neg (show ¬ x.toNat < z.toNat by omega),
                          if_neg (show ¬ z.toNat < x.toNat by omega)]
                      exact ih h1 h2

/-- Two mutually non-less code-point lists are equal. -/
lemma charListLt_conn : ∀ {a b : List Char}, charListLt a b = false →
    charListLt b a = false → a = b := by
  intro a
  induction a with
  | nil =>
      intro b h1 _
      cases b with
      | nil => rfl
      | cons d ds => exact absurd h1 (by simp [charListLt])
  | cons c cs ih =>
      intro b h1 h2
      cases b with
      | nil => exact absurd h2 (by simp [charListLt])
      | cons d ds =>
          unfold charListLt at h1 h2
          by_cases hcd : c.toNat < d.toNat
          · rw [if_pos hcd] at h1
            exact absurd h1 (by simp)
          · by_cases hdc : d.toNat < c.toNat
            · rw [if_pos hdc] at h2
              exact absurd h2 (by simp)
            · rw [if_neg hcd, if_neg hdc] at h1
              rw [if_neg hdc, if_neg hcd] at h2
              have hn : c.toNat = d.toNat := by omega
              have hc : c = d := Char.ext (UInt32.ext hn)
              rw [hc, ih h1 h2]

/-- The Boolean string `≤` unfolded. -/
lemma strLeB_iff (a b : String) : strLeB a b = true ↔ charListLt b.data a.data = false := by
  unfold strLeB
  cases h : charListLt b.data a.data <;> simp [h]

instance : IsTotal String (fun a b => strLeB a b = true) := by
  constructor
  intro a b
  cases h : charListLt b.data a.data with
  | false => exact Or.inl ((strLeB_iff a b).mpr h)
  | true => exact Or.inr ((strLeB_iff b a).mpr (charListLt_asymm h))

instance : IsTrans String (fun a b => strLeB a b = true) := by
  constructor
  intro a b c hab hbc
  rw [strLeB_iff] at hab hbc ⊢
  cases hbc3 : charListLt b.data c.data with
  | false => exact (charListLt_conn hbc3 hbc) ▸ hab
  | true =>
      cases hca : charListLt c.data a.data with
      | false => rfl
      | true =>
          rw [charListLt_trans hbc3 hca] at hab
          exact absurd hab (by simp)

/-- Python `sorted` is idempotent. -/
lemma pySorted_idem (l : List String) : pySorted (pySorted l) = pySorted l := by
  unfold pySorted
  exact List.Sorted.insertionSort_eq (List.sorted_insertionSort _ l)

/-- `generate_pattern_hash` sorts its address list itself, so pre-sorting the
list does not change the hash. -/
lemma generate_pattern_hash_pySorted (t : String) (l : List String) :
    generate_pattern_hash t (pySorted l) = generate_pattern_hash t l := by
  unfold generate_pattern_hash
  rw [pySorted_idem]

/-- The `scc_`-prefixed id never coincides with the canonical
`smurfing_network_`-prefixed id (the prefixes have different lengths). -/
lemma scc_id_ne (h : String) :
    generate_pattern_id "scc" h ≠ generate_pattern_id "smurfing_network" h := by
  unfold generate_pattern_id
  intro he
  have hl := congrArg String.length he
  simp [String.length_append] at hl
  exact absurd hl (by decide)

/-- `_analyze_scc` on the two-node cycle `a ⇄ b`: the single SCC `{a, b}` has
z-score 0 (zero variance), so with `anomaly_threshold = 0` exactly the fixture
pattern is emitted. -/
lemma analyze_scc_on_gTwoCycle :
    analyze_scc sqrtQ sccCfgAB sevCfgHalf [] gTwoCycle = [sccPatternAB] := by
  have hSCC : strongly_connected_components gTwoCycle = [["a", "b"]] := by decide
  have hSizes : sccSizes gTwoCycle = [2] := by decide
  have hvar : sccVariance gTwoCycle = 0 := by
    unfold sccVariance sccMean
    rw [hSizes]
    norm_num
  have hsq : sqrtQ (0 : ℚ) = 0 := by norm_num [sqrtQ]
  have hbase : scc_base_score sqrtQ sccCfgAB gTwoCycle (["a", "b"].length) = 0 := by
    unfold scc_base_score
    rw [hvar, hsq]
    norm_num
  have hadj : adjust_severity_for_trust sevCfgHalf []
      (scc_base_score sqrtQ sccCfgAB gTwoCycle (["a", "b"].length)) ["a", "b"] = 0 := by
    rw [hbase]
    unfold adjust_severity_for_trust
    norm_num [List.countP, List.countP.go, is_trusted_address, is_fraudulent_address, lookupLabel]
  unfold analyze_scc
  rw [hSizes, hSCC]
  simp only [List.foldl_cons, List.foldl_nil]
  rw [hadj]
  rw [show pySorted ["a", "b"] = ["a", "b"] from by decide,
      show subgraphEdges gTwoCycle ["a", "b"] = gTwoCycle.edges from by decide]
  norm_num [sccCfgAB, sccPatternAB, gTwoCycle, densityDirected, Pattern.mk.injEq, List.replicate]

/-- `ProximityDetector.detect` on the one-edge graph `RISK → A` with the scam
label on `RISK`: exactly the fixture pattern is emitted, whose severity is the
adjustment over the suspect `A` alone. -/
lemma proximity_detect_on_gRiskA :
    proximity_detect proxCfg1 riskCfg0 sevCfgHalf labelsRisk gRiskA = [proxPatternRA] := by
  have hfilter : List.filter (fun a => is_fraudulent_address labelsRisk a) gRiskA.nodes
      = ["RISK"] := by decide
  have hspl : shortest_path_lengths gRiskA "RISK" proxCfg1.max_distance
      = [("RISK", 0), ("A", 1)] := by decide
  have hadjA : adjust_severity_for_trust sevCfgHalf labelsRisk
      (proxCfg1.distance_decay_factor / (((1 : ℕ) : ℚ) + 1) * proxCfg1.base_severity) ["A"]
      = 1/4 := by
    unfold adjust_severity_for_trust
    norm_num [proxCfg1, List.countP, List.countP.go,
      show is_trusted_address labelsRisk "A" = false from by decide,
      show is_fraudulent_address labelsRisk "A" = false from by decide]
  have hdeg : degreeIn gRiskA.edges "A" + degreeOut gRiskA.edges "A" = 1 := by decide
  have hvol : nodeVolume gRiskA "A" = 10 := by
    unfold nodeVolume
    rw [show List.filter (fun e => e.dst = "A") gRiskA.edges = gRiskA.edges from by decide,
        show List.filter (fun e => e.src = "A") gRiskA.edges = [] from by decide]
    norm_num [gRiskA]
  unfold proximity_detect
  dsimp only
  rw [hfilter]
  norm_num
  unfold proximity_risk_fold
  rw [hspl]
  simp only [List.foldl_cons, List.foldl_nil]
  dsimp only
  rw [hadjA, hdeg, hvol]
  norm_num [proxPatternRA, proxCfg1, Pattern.mk.injEq]
  decide

/-- The fan-in arm preserves and establishes the motif pattern shape:
family type, hash canonical over the (internally sorted) participants, and
`pattern_type`-prefixed id. -/
lemma motif_fanin_step_shape (motif_cfg : MotifConfig) (g : DiGraph) (thr : ℚ)
    (node : String) (acc : List Pattern)
    (hacc : ∀ q ∈ acc,
      (q.pattern_type = "motif_fanin" ∨ q.pattern_type = "motif_fanout") ∧
      q.pattern_hash = generate_pattern_hash q.pattern_type q.addresses_involved ∧
      q.pattern_id = generate_pattern_id q.pattern_type q.pattern_hash) :
    ∀ p ∈ motif_fanin_step motif_cfg g thr acc node,
      (p.pattern_type = "motif_fanin" ∨ p.pattern_type = "motif_fanout") ∧
      p.pattern_hash = generate_pattern_hash p.pattern_type p.addresses_involved ∧
      p.pattern_id = generate_pattern_id p.pattern_type p.pattern_hash := by
  intro p hp
  unfold motif_fanin_step at hp
  dsimp only at hp
  split at hp
  · split at hp
    · exact hacc p hp
    · rcases List.mem_append.mp hp with hp | hp
      · exact hacc p hp
      · rcases List.mem_singleton.mp hp with rfl
        refine ⟨Or.inl (by dsimp only), ?_, by dsimp only⟩
        dsimp only
        exact generate_pattern_hash_pySorted "motif_fanin" _
  · exact hacc p hp

/-- The fan-out arm preserves and establishes the motif pattern shape. -/
lemma motif_fanout_step_shape (motif_cfg : MotifConfig) (g : DiGraph) (thr : ℚ)
    (node : String) (acc : List Pattern)
    (hacc : ∀ q ∈ acc,
      (q.pattern_type = "motif_fanin" ∨ q.pattern_type = "motif_fanout") ∧
      q.pattern_hash = generate_pattern_hash q.pattern_type q.addresses_involved ∧
      q.pattern_id = generate_pattern_id q.pattern_type q.pattern_hash) :
    ∀ p ∈ motif_fanout_step motif_cfg g thr acc node,
      (p.pattern_type = "motif_fanin" ∨ p.pattern_type = "motif_fanout") ∧
      p.pattern_hash = generate_pattern_hash p.pattern_type p.addresses_involved ∧
      p.pattern_id = generate_pattern_id p.pattern_type p.pattern_hash := by
  intro p hp
  unfold motif_fanout_step at hp
  dsimp only at hp
  split at hp
  · split at hp
    · exact hacc p hp
    · rcases List.mem_append.mp hp with hp | hp
      · exact hacc p hp
      · rcases List.mem_singleton.mp hp with rfl
        refine ⟨Or.inr (by dsimp only), ?_, by dsimp only⟩
        dsimp only
        exact generate_pattern_hash_pySorted "motif_fanout" _
  · exact hacc p hp

/-- Every pattern `MotifDetector.detect` emits: a motif family type, the
canonical hash over the participants (sorting is idempotent, so the pre-sorted
hash argument of the source matches the canonical form) and the
`pattern_type`-prefixed id. -/
lemma motif_detect_shape (motif_cfg : MotifConfig) (g : DiGraph) :
    ∀ p ∈ motif_detect motif_cfg g,
      (p.pattern_type = "motif_fanin" ∨ p.pattern_type = "motif_fanout") ∧
      p.pattern_hash = generate_pattern_hash p.pattern_type p.addresses_involved ∧
      p.pattern_id = generate_pattern_id p.pattern_type p.pattern_hash := by
  intro p hp
  unfold motif_detect at hp
  dsimp only at hp
  split at hp
  · exact absurd hp (List.not_mem_nil p)
  · refine @foldl_preserve _
      (fun q => (q.pattern_type = "motif_fanin" ∨ q.pattern_type = "motif_fanout") ∧
        q.pattern_hash = generate_pattern_hash q.pattern_type q.addresses_involved ∧
        q.pattern_id = generate_pattern_id q.pattern_type q.pattern_hash)
      _ ?_ _ [] (by simp) p hp
    intro acc node q hacc hq
    exact motif_fanout_step_shape motif_cfg g _ node _
      (motif_fanin_step_shape motif_cfg g _ node acc hacc) q hq

/-- Every pattern `ThresholdDetector.detect` emits: `threshold_evasion` type,
participants `[node]`, an id of the canonical `pattern_type ++ "_" ++ hash`
form — but a hash over `[node, threshold_type, str(threshold_value)]` rather
than over the participant addresses. -/
lemma threshold_detect_shape (sqrtA : ℚ → ℚ) (cfg : ThresholdConfig)
    (sev_cfg : SeverityConfig) (labels : LabelsCache) (g : DiGraph) :
    ∀ p ∈ threshold_detect sqrtA cfg sev_cfg labels g,
      p.pattern_type = "threshold_evasion" ∧
      p.addresses_involved = [p.primary_address] ∧
      p.pattern_hash = generate_pattern_hash "threshold_evasion"
        [p.primary_address, p.threshold_type, pyFloatStr p.threshold_value] ∧
      p.pattern_id = generate_pattern_id "threshold_evasion" p.pattern_hash := by
  intro p hp
  unfold threshold_detect at hp
  refine @foldl_preserve _
    (fun q => q.pattern_type = "threshold_evasion" ∧
      q.addresses_involved = [q.primary_address] ∧
      q.pattern_hash = generate_pattern_hash "threshold_evasion"
        [q.primary_address, q.threshold_type, pyFloatStr q.threshold_value] ∧
      q.pattern_id = generate_pattern_id "threshold_evasion" q.pattern_hash)
    _ ?_ _ [] (by simp) p hp
  intro acc node q hacc hq
  refine @foldl_preserve _
    (fun q => q.pattern_type = "threshold_evasion" ∧
      q.addresses_involved = [q.primary_address] ∧
      q.pattern_hash = generate_pattern_hash "threshold_evasion"
        [q.primary_address, q.threshold_type, pyFloatStr q.threshold_value] ∧
      q.pattern_id = generate_pattern_id "threshold_evasion" q.pattern_hash)
    _ ?_ _ acc hacc q hq
  intro acc2 tt q2 hacc2 hq2
  dsimp only at hq2
  split at hq2
  · exact hacc2 q2 hq2
  · split at hq2
    · exact hacc2 q2 hq2
    · rcases List.mem_append.mp hq2 with hq2 | hq2
      · exact hacc2 q2 hq2
      · rcases List.mem_singleton.mp hq2 with rfl
        exact ⟨by dsimp only, by dsimp only, by dsimp only, by dsimp only⟩

/-- The per-path step of `LayeringDetector.detect` preserves and establishes
the layering pattern shape: `layering_path` type, canonical hash over the
sorted path, canonical id. -/
lemma layering_path_step_shape (sqrtA : ℚ → ℚ) (path_cfg : PathAnalysisConfig)
    (g : DiGraph) (source target : String) (st : List Pattern × ℕ) (path : List String)
    (hst : ∀ q ∈ st.1,
      q.pattern_type = "layering_path" ∧
      q.pattern_hash = generate_pattern_hash "layering_path" q.addresses_involved ∧
      q.pattern_id = generate_pattern_id "layering_path" q.pattern_hash) :
    ∀ p ∈ (layering_path_step sqrtA path_cfg g source target st path).1,
      p.pattern_type = "layering_path" ∧
      p.pattern_hash = generate_pattern_hash "layering_path" p.addresses_involved ∧
      p.pattern_id = generate_pattern_id "layering_path" p.pattern_hash := by
  intro p hp
  unfold layering_path_step at hp
  dsimp only at hp
  split at hp
  · exact hst p hp
  · split at hp
    · exact hst p hp
    · split at hp
      · exact hst p hp
      · split at hp
        · split at hp
          · exact hst p hp
          · rcases List.mem_append.mp hp with hp | hp
            · exact hst p hp
            · rcases List.mem_singleton.mp hp with rfl
              exact ⟨by dsimp only, by dsimp only, by dsimp only⟩
        · exact hst p hp

/-- Every pattern `LayeringDetector.detect` emits: `layering_path` type, the
canonical hash over the sorted participants, and the canonical
`pattern_type`-prefixed id. -/
lemma layering_detect_shape (sqrtA : ℚ → ℚ) (path_cfg : PathAnalysisConfig) (g : DiGraph) :
    ∀ p ∈ layering_detect sqrtA path_cfg g,
      p.pattern_type = "layering_path" ∧
      p.pattern_hash = generate_pattern_hash "layering_path" p.addresses_involved ∧
      p.pattern_id = generate_pattern_id "layering_path" p.pattern_hash := by
  have hfold : ∀ (hvn : List String) (p : Pattern),
      p ∈ ((hvn.take path_cfg.max_source_nodes).foldl
        (fun st source =>
          if path_cfg.max_paths_to_check ≤ st.2 then st
          else
            (hvn.take path_cfg.max_target_nodes).foldl
              (fun st2 target =>
                if source = target || path_cfg.max_paths_to_check ≤ st2.2 then st2
                else
                  (all_simple_paths g source target path_cfg.max_path_length).foldl
                    (layering_path_step sqrtA path_cfg g source target) st2)
              st)
        ([], 0)).1 →
      p.pattern_type = "layering_path" ∧
      p.pattern_hash = generate_pattern_hash "layering_path" p.addresses_involved ∧
      p.pattern_id = generate_pattern_id "layering_path" p.pattern_hash := by
    intro hvn p hp
    refine @foldl_preserve_pair _
      (fun q => q.pattern_type = "layering_path" ∧
        q.pattern_hash = generate_pattern_hash "layering_path" q.addresses_involved ∧
        q.pattern_id = generate_pattern_id "layering_path" q.pattern_hash)
      _ ?_ _ ([], 0) (by simp) p hp
    intro st source q hst hq
    split at hq
    · exact hst q hq
    · refine @foldl_preserve_pair _
        (fun q => q.pattern_type = "layering_path" ∧
          q.pattern_hash = generate_pattern_hash "layering_path" q.addresses_involved ∧
          q.pattern_id = generate_pattern_id "layering_path" q.pattern_hash)
        _ ?_ _ st hst q hq
      intro st2 target q2 hst2 hq2
      split at hq2
      · exact hst2 q2 hq2
      · refine @foldl_preserve_pair _
          (fun q => q.pattern_type = "layering_path" ∧
            q.pattern_hash = generate_pattern_hash "layering_path" q.addresses_involved ∧
            q.pattern_id = generate_pattern_id "layering_path" q.pattern_hash)
          _ ?_ _ st2 hst2 q2 hq2
        intro st3 path q3 hst3 hq3
        exact layering_path_step_shape sqrtA path_cfg g source target st3 path hst3 q3 hq3
  intro p hp
  unfold layering_detect at hp
  dsimp only at hp
  split at hp <;> split at hp
  · exact absurd hp (List.not_mem_nil p)
  · exact hfold _ p hp
  · exact absurd hp (List.not_mem_nil p)
  · exact hfold _ p hp

/-- The evasion analysis of `T` in `gThresh`: the single 9-USD transaction
lies in the near-threshold range `[5, 10]`, so every gate passes and the
avoidance score is 1. -/
lemma threshold_analyze_T :
    analyze_threshold_evasion sqrtQ threshCfgT gThresh "T" 10 = some evT := by
  unfold analyze_threshold_evasion
  rw [show transaction_amounts gThresh "T" = [9] from rfl]
  norm_num [threshCfgT, List.filter, evT, EvasionInfo.mk.injEq]

/-- The evasion analysis of `B` in `gThresh`: no outgoing edges, so no
transactions and no report. -/
lemma threshold_analyze_B :
    analyze_threshold_evasion sqrtQ threshCfgT gThresh "B" 10 = none := by
  unfold analyze_threshold_evasion
  rw [show transaction_amounts gThresh "B" = [] from rfl]
  norm_num [threshCfgT]

/-- With no labels the severity adjustment of the avoidance score 1 is 1. -/
lemma threshold_adjust_T :
    adjust_severity_for_trust sevCfgHalf [] (evT.threshold_avoidance_score) ["T"] = 1 := by
  unfold adjust_severity_for_trust
  norm_num [evT, List.countP, List.countP.go, is_trusted_address, is_fraudulent_address,
    lookupLabel]

/-- `ThresholdDetector.detect` on the one-edge fixture emits exactly the
fixture pattern. -/
lemma threshold_detect_on_gThresh :
    threshold_detect sqrtQ threshCfgT sevCfgHalf [] gThresh = [thresholdPatternT] := by
  unfold threshold_detect
  rw [show get_thresholds threshCfgT = [("reporting", (10 : ℚ))] from rfl,
      show gThresh.nodes = ["T", "B"] from by decide]
  simp only [List.foldl_cons, List.foldl_nil]
  rw [threshold_analyze_T, threshold_analyze_B]
  dsimp only
  rw [threshold_adjust_T]
  norm_num [thresholdPatternT, threshCfgT, evT, Pattern.mk.injEq]

/-! ## Claims -/

/-- C2 (amended): the graph builder maps each flow row to the edge for its
ordered pair and always returns a graph; when the same ordered pair occurs in
several rows, the stored edge carries the attributes of the last such row
(silent overwrite) — no `DuplicateFlow` failure exists in the builder. -/
theorem c2_builder_amended (flows : List Flow) (u v : String) :
    (build_graph_from_flows_data flows).findEdge u v =
      ((flows.filter (fun f => f.from_address = u && f.to_address = v)).getLast?).map
        flowToEdge :=
  build_findEdge flows u v

/-- C2 counterexample: two rows for the ordered pair `("u","v")`.  The spec
model fails with `DuplicateFlow`, but `_build_graph_from_flows_data` returns a
graph whose single edge holds the second row's attributes. -/
theorem c2_counterexample :
    build_graph_spec
        [⟨"u", "v", 1, 1⟩, ⟨"u", "v", 2, 3⟩] = Except.error BuildError.DuplicateFlow ∧
    (build_graph_from_flows_data [⟨"u", "v", 1, 1⟩, ⟨"u", "v", 2, 3⟩]).edges =
      [{ src := "u", dst := "v", weight := 2, tx_count := 3, amount_usd_sum := 2 }] := by
  constructor
  · have hdup : ¬ (([⟨"u", "v", 1, 1⟩, ⟨"u", "v", 2, 3⟩] : List Flow).map
        (fun f => (f.from_address, f.to_address))).Nodup := by decide
    simp [build_graph_spec, hdup]
  · simp [build_graph_from_flows_data, DiGraph.addEdge, flowToEdge]

/-- C3: for every feature vector produced by `_get_base_features_cached`,
`total_volume_usd` equals `total_in_usd + total_out_usd` exactly (the code
computes `total_vol := total_in + total_out` in the same decimal arithmetic
that produces the two addend fields). -/
theorem c3_total_volume_is_in_plus_out (address : String) (flows : List Flow) :
    (get_base_features_cached address flows).total_volume_usd =
      (get_base_features_cached address flows).total_in_usd +
      (get_base_features_cached address flows).total_out_usd := rfl

/-- C10: every address in the sorted unique address set extracted from the
flow rows is an endpoint of at least one edge of the built graph, so the
per-address flow index is non-empty and the
"No money flows found for address" branch cannot fire for it. -/
theorem c10_flows_index_nonempty (flows : List Flow) (a : String)
    (ha : a ∈ extract_addresses_from_flows flows) :
    build_flows_index_from_graph (build_graph_from_flows_data flows) a ≠ [] := by
  have ha2 : a ∈ flows.flatMap (fun f => [f.from_address, f.to_address]) := by
    have hperm := List.perm_insertionSort (fun x y : String => strLeB x y = true)
      (dedupKeepFirst (flows.flatMap (fun f => [f.from_address, f.to_address])))
    exact mem_of_mem_dedupFirstAux (hperm.mem_iff.mp ha)
  obtain ⟨f, hf, hend⟩ := List.mem_flatMap.mp ha2
  have hend' : f.from_address = a ∨ f.to_address = a := by
    rcases List.mem_cons.mp hend with h | h
    · exact Or.inl h.symm
    · exact Or.inr (List.mem_singleton.mp h).symm
  -- the pair of `f` is stored as an edge: look it up
  have hfe := build_findEdge flows f.from_address f.to_address
  have hfilter_ne : flows.filter
      (fun f' => f'.from_address = f.from_address && f'.to_address = f.to_address) ≠ [] := by
    intro hnil
    have : f ∈ flows.filter
        (fun f' => f'.from_address = f.from_address && f'.to_address = f.to_address) :=
      List.mem_filter.mpr ⟨hf, by simp⟩
    rw [hnil] at this
    exact List.not_mem_nil f this
  obtain ⟨fl, hfl⟩ := Option.isSome_iff_exists.mp (List.getLast?_isSome.mpr hfilter_ne)
  have hflmem := List.mem_of_mem_getLast? hfl
  have hflpred := List.of_mem_filter hflmem
  have hflpair : fl.from_address = f.from_address ∧ fl.to_address = f.to_address := by
    simpa using hflpred
  rw [hfl] at hfe
  have hemem : flowToEdge fl ∈ (build_graph_from_flows_data flows).edges :=
    List.mem_of_find?_eq_some hfe
  intro hnil
  have hall := List.flatMap_eq_nil_iff.mp hnil _ hemem
  rcases hend' with hsrc | hdst
  · have : (flowToEdge fl).src = a := by
      show fl.from_address = a
      rw [hflpair.1, hsrc]
    simp [this] at hall
  · have : (flowToEdge fl).dst = a := by
      show fl.to_address = a
      rw [hflpair.2, hdst]
    simp [this] at hall

/-- C10 witness: the theorem applied to the single flow `("a","b")` at the
extracted address `"a"`. -/
theorem c10_witness :
    "a" ∈ extract_addresses_from_flows [⟨"a", "b", 1, 1⟩] ∧
    build_flows_index_from_graph (build_graph_from_flows_data [⟨"a", "b", 1, 1⟩]) "a" ≠ [] :=
  ⟨by decide, c10_flows_index_nonempty [⟨"a", "b", 1, 1⟩] "a" (by decide)⟩

/-- C9: alert identifiers are deterministic: two `_create_alert` calls that
agree on `(address, typology, processing_date)` produce the same `alert_id`
whatever their confidence, evidence, risk indicators, description or related
addresses, and that id is the UUIDv5 in the DNS namespace of
`address ++ "-" ++ typology ++ "-" ++ processing_date`. -/
theorem c9_alert_id_stable (processing_date address typ d1 d2 : String)
    (c1 c2 : ℚ) (ev1 ev2 : Evidence) (ri1 ri2 ra1 ra2 : List String) :
    (create_alert processing_date address typ c1 ev1 ri1 d1 ra1).alert_id =
      (create_alert processing_date address typ c2 ev2 ri2 d2 ra2).alert_id ∧
    (create_alert processing_date address typ c1 ev1 ri1 d1 ra1).alert_id =
      uuid5 namespaceDNS (address ++ "-" ++ typ ++ "-" ++ processing_date) :=
  ⟨rfl, rfl⟩

/-- C5: `BurstDetector.detect` returns the empty list on every graph and
configuration — `_analyze_temporal_bursts` is a placeholder returning `None`
for every node, so no temporal-burst pattern is ever emitted, timestamps or
not. -/
theorem c5_burst_detect_always_empty (cfg : BurstConfig) (sev_cfg : SeverityConfig)
    (labels : LabelsCache) (g : DiGraph) :
    burst_detect cfg sev_cfg labels g = [] := by
  unfold burst_detect
  split
  · rfl
  · simp only [analyze_temporal_bursts]
    exact foldl_ignore _ _

/-- C6: the Gini coefficient of the equal positive list `[5, 5]` is `-1/2`:
`_calculate_gini_coefficient` computes `1 - 2·Σ(i+1)vᵢ/(n·Σv)`, which is
negative for every list kept after filtering with at least two entries,
contradicting the claimed value `0` for equal amounts and the claimed range
`[0, 1]`. -/
theorem c6_gini_of_equal_pair_is_negative :
    calculate_gini_coefficient [5, 5] = -(1/2) ∧
    calculate_gini_coefficient [5, 5] < 0 := by
  have h : calculate_gini_coefficient [5, 5] = -(1/2) := by
    norm_num [calculate_gini_coefficient, sortQ, List.insertionSort,
      List.orderedInsert, giniWeightedSum, List.filter]
    decide
  exact ⟨h, by rw [h]; norm_num⟩

/-- C7 (amended): when the three gate conditions hold, `_detect_peel_chain`
emits exactly when `min(0.4·(deg/20) + 0.3·min(vol/50000, 1) +
0.3·(1 - burst), 1)` is strictly greater than `0.6` — the `deg/20` term is not
individually capped at 1 — and the emitted confidence is that clipped blend. -/
theorem c7_peel_chain_amended (cfg : PeelChainConfig)
    (processing_date address : String) (deg vol burst : ℚ)
    (h1 : cfg.min_recipients ≤ deg) (h2 : cfg.min_volume_usd ≤ vol)
    (h3 : burst < 3/10) :
    (detect_peel_chain cfg processing_date address deg vol burst).map
        (fun a => a.confidence_score) =
      if 3/5 < min ((deg / 20) * (2/5) + (min (vol / 50000) 1) * (3/10) +
          (1 - burst) * (3/10)) 1
      then some (min ((deg / 20) * (2/5) + (min (vol / 50000) 1) * (3/10) +
          (1 - burst) * (3/10)) 1)
      else none := by
  unfold detect_peel_chain
  rw [if_pos ⟨h1, h2, h3⟩]
  split
  case isTrue h => rw [if_pos h]; simp [create_alert]
  case isFalse h => rw [if_neg h]; simp

/-- C7 witness: the amended peel-chain theorem applied at
`min_recipients = 5`, `min_volume_usd = 1000`, `deg = 30`, `vol = 5000`,
`burst = 1/5`. -/
theorem c7_peel_chain_witness :
    (detect_peel_chain ⟨5, 1000⟩ "2024-01-01" "addr1" 30 5000 (1/5)).map
        (fun a => a.confidence_score) =
      if 3/5 < min (((30 : ℚ) / 20) * (2/5) + (min ((5000 : ℚ) / 50000) 1) * (3/10) +
          (1 - 1/5) * (3/10)) 1
      then some (min (((30 : ℚ) / 20) * (2/5) + (min ((5000 : ℚ) / 50000) 1) * (3/10) +
          (1 - 1/5) * (3/10)) 1)
      else none :=
  c7_peel_chain_amended ⟨5, 1000⟩ "2024-01-01" "addr1" 30 5000 (1/5)
    (by norm_num) (by norm_num) (by norm_num)

/-- C7 counterexample: at `deg = 30`, `vol = 5000`, `burst = 1/5` the emitted
confidence is `0.87` while the claim's blend — with the `deg/20` term capped
at 1 — is `0.67`, so the claim's "confidence_score equals that blend" is
false (the claim's emission test `≥ 0.6` also differs from the code's strict
`> 0.6`). -/
theorem c7_peel_chain_counterexample :
    (detect_peel_chain ⟨5, 1000⟩ "2024-01-01" "addr1" 30 5000 (1/5)).map
        (fun a => a.confidence_score) = some (87/100) ∧
    (2/5) * min ((30 : ℚ) / 20) 1 + (3/10) * min ((5000 : ℚ) / 50000) 1 +
      (3/10) * (1 - 1/5) = 67/100 ∧
    (87/100 : ℚ) ≠ 67/100 := by
  refine ⟨?_, by norm_num, by norm_num⟩
  norm_num [detect_peel_chain, create_alert, min_def]

/-- C8 (amended): a `same_entity` cluster is emitted exactly for the
addresses with at least `min_alerts` alerts, and for every emitted cluster
`total_alerts` equals the number of entries of `related_alert_ids`, which is
the number of member alerts counted with multiplicity (this can exceed the
number of distinct `(address, typology)` pairs, since the structural fan-out
can emit several alerts with the same typology for one address);
`severity_max` attains the maximal ordinal under `low < medium < high <
critical` and `confidence_avg` is the arithmetic mean. -/
theorem c8_cluster_amended :
    (∀ (min_alerts : ℕ) (pd : String) (alerts : List Alert) (c : AlertCluster),
      c ∈ cluster_by_same_entity min_alerts pd alerts →
      ∃ a, c.addresses_involved = [a] ∧
        c.total_alerts =
          ((alerts.filter (fun x => x.address ≠ "")).filter
            (fun x => x.address = a)).length ∧
        c.related_alert_ids.length = c.total_alerts ∧
        min_alerts ≤ c.total_alerts ∧
        severityOrder c.severity_max =
          (((alerts.filter (fun x => x.address ≠ "")).filter
            (fun x => x.address = a)).map (fun x => severityOrder x.severity)).foldl
            max 0 ∧
        c.confidence_avg =
          (((alerts.filter (fun x => x.address ≠ "")).filter
            (fun x => x.address = a)).map (fun x => x.confidence_score)).sum /
          ((((alerts.filter (fun x => x.address ≠ "")).filter
            (fun x => x.address = a)).length : ℚ))) ∧
    (∀ (min_alerts : ℕ) (pd : String) (alerts : List Alert) (a : String),
      1 ≤ min_alerts → a ≠ "" →
      min_alerts ≤ (alerts.filter (fun x => x.address = a)).length →
      ∃ c ∈ cluster_by_same_entity min_alerts pd alerts,
        c.addresses_involved = [a]) := by
  constructor
  · intro minA pd alerts c hc
    unfold cluster_by_same_entity at hc
    by_cases halerts : alerts = []
    · rw [if_pos halerts] at hc
      exact absurd hc (List.not_mem_nil c)
    · rw [if_neg halerts] at hc
      obtain ⟨a, _, hfn⟩ := List.mem_filterMap.mp hc
      refine ⟨a, ?_⟩
      by_cases hlen : minA ≤ ((alerts.filter (fun x => x.address ≠ "")).filter
          (fun x => x.address = a)).length
      · rw [if_pos hlen] at hfn
        cases hgrp : (alerts.filter (fun x => x.address ≠ "")).filter
            (fun x => x.address = a) with
        | nil => rw [hgrp] at hfn; exact absurd hfn (by simp)
        | cons a0 rest =>
            rw [hgrp] at hfn
            have hc' := Option.some.inj hfn
            subst hc'
            refine ⟨rfl, rfl, by simp, hgrp ▸ hlen, ?_, rfl⟩
            exact (pyMaxBy_spec (fun x => severityOrder x.severity) rest a0).trans
              (foldl_max_map (fun x => severityOrder x.severity) a0 rest).symm
      · rw [if_neg hlen] at hfn
        exact absurd hfn (by simp)
  · intro minA pd alerts a hmin ha hlen
    have hgrp_ne : alerts.filter (fun x => x.address = a) ≠ [] := by
      intro h
      rw [h] at hlen
      simp at hlen
      omega
    have hne_alerts : alerts ≠ [] := by
      intro h
      rw [h] at hgrp_ne
      exact hgrp_ne rfl
    unfold cluster_by_same_entity
    rw [if_neg hne_alerts]
    have hfeq := filter_valid_address alerts a ha
    obtain ⟨x0, hx0⟩ : ∃ x, x ∈ alerts.filter (fun x => x.address = a) := by
      cases hgl : alerts.filter (fun x => x.address = a) with
      | nil => exact absurd hgl hgrp_ne
      | cons y ys => exact ⟨y, hgl ▸ List.mem_cons_self y ys⟩
    have hx0addr : x0.address = a := by simpa using List.of_mem_filter hx0
    have hx0valid : x0 ∈ alerts.filter (fun x => x.address ≠ "") :=
      List.mem_filter.mpr ⟨(List.mem_filter.mp hx0).1, by simp [hx0addr]; exact ha⟩
    have haMem : a ∈ dedupKeepFirst ((alerts.filter (fun x => x.address ≠ "")).map
        (fun x => x.address)) :=
      mem_dedupFirstAux_of_mem (List.mem_map.mpr ⟨x0, hx0valid, hx0addr⟩)
        (List.not_mem_nil a)
    have hlen' : minA ≤ ((alerts.filter (fun x => x.address ≠ "")).filter
        (fun x => x.address = a)).length := by rw [hfeq]; exact hlen
    cases hgrp : (alerts.filter (fun x => x.address ≠ "")).filter
        (fun x => x.address = a) with
    | nil => rw [hfeq] at hgrp; exact absurd hgrp hgrp_ne
    | cons a0 rest =>
        have hlen2 : minA ≤ (a0 :: rest).length := hgrp ▸ hlen'
        refine ⟨{ cluster_id := "cluster_same_entity_" ++ a ++ "_" ++ pd
                  cluster_type := "same_entity"
                  primary_alert_id := a0.alert_id
                  related_alert_ids := (a0 :: rest).map (fun x => x.alert_id)
                  addresses_involved := [a]
                  total_alerts := (a0 :: rest).length
                  total_volume_usd := a0.volume_usd
                  severity_max := (pyMaxBy (fun x => severityOrder x.severity) a0 rest).severity
                  confidence_avg := ((a0 :: rest).map (fun x => x.confidence_score)).sum /
                    (((a0 :: rest).length : ℚ)) },
          List.mem_filterMap.mpr ⟨a, haMem, ?_⟩, rfl⟩
        simp only [hgrp]
        rw [if_pos hlen2]

/-- C8 counterexample: the structural fan-out of two cycle patterns sharing
address `X` yields two `CYCLE_DETECTION` alerts for `X`; the `same_entity`
cluster for `X` reports `total_alerts = 2` while `X` has exactly one distinct
`(address, typology)` pair, refuting the claimed equality. -/
theorem c8_counterexample :
    ((cluster_by_same_entity 2 "2024-01-01" alertsTwoCycles).map
      (fun c => (c.total_alerts, c.addresses_involved))) = [(2, ["X"])] ∧
    (dedupKeepFirst ((alertsTwoCycles.filter (fun al => al.address = "X")).map
      (fun al => (al.address, al.typology_type)))).length = 1 ∧
    (2 : ℕ) ≠ 1 := by
  refine ⟨?_, by decide, by decide⟩
  decide

/-- C8 witness: the amended theorem's emission direction applied to the
two-cycle alert list at address `X` with `min_alerts = 2`. -/
theorem c8_cluster_witness :
    ∃ c ∈ cluster_by_same_entity 2 "2024-01-01" alertsTwoCycles,
      c.addresses_involved = ["X"] :=
  c8_cluster_amended.2 2 "2024-01-01" alertsTwoCycles "X" (by decide) (by decide)
    (by decide)

/-- C1 (amended): every pattern of the cycle, layering, motif,
community-smurfing and proximity detectors carries the canonical hash (first
16 hex characters of SHA-256 of `pattern_type ++ ":" ++` the comma-join of
the sorted participants) and the id `pattern_type ++ "_" ++ pattern_hash`;
the burst detector emits nothing; the anomalous-SCC patterns of the network
detector carry the canonical hash but the id `"scc" ++ "_" ++ pattern_hash`,
which never equals `pattern_type ++ "_" ++ pattern_hash` because their
`pattern_type` is `smurfing_network`; and the threshold detector's patterns
carry a canonically formed id but a hash over
`[node, threshold_type, str(threshold_value)]` instead of the participant
addresses. -/
theorem c1_pattern_identity_amended :
    (∀ cfg g, ∀ p ∈ cycle_detect cfg g,
        p.pattern_hash = generate_pattern_hash p.pattern_type p.addresses_involved ∧
        p.pattern_id = generate_pattern_id p.pattern_type p.pattern_hash) ∧
    (∀ communities net_cfg sev_cfg labels g,
        ∀ p ∈ detect_smurfing communities net_cfg sev_cfg labels g,
        p.pattern_hash = generate_pattern_hash p.pattern_type p.addresses_involved ∧
        p.pattern_id = generate_pattern_id p.pattern_type p.pattern_hash) ∧
    (∀ prox_cfg risk_cfg sev_cfg labels g,
        ∀ p ∈ proximity_detect prox_cfg risk_cfg sev_cfg labels g,
        p.pattern_hash = generate_pattern_hash p.pattern_type p.addresses_involved ∧
        p.pattern_id = generate_pattern_id p.pattern_type p.pattern_hash) ∧
    (∀ sqrtA path_cfg g, ∀ p ∈ layering_detect sqrtA path_cfg g,
        p.pattern_hash = generate_pattern_hash p.pattern_type p.addresses_involved ∧
        p.pattern_id = generate_pattern_id p.pattern_type p.pattern_hash) ∧
    (∀ motif_cfg g, ∀ p ∈ motif_detect motif_cfg g,
        p.pattern_hash = generate_pattern_hash p.pattern_type p.addresses_involved ∧
        p.pattern_id = generate_pattern_id p.pattern_type p.pattern_hash) ∧
    (∀ cfg sev_cfg labels g, burst_detect cfg sev_cfg labels g = []) ∧
    (∀ sqrtA scc_cfg sev_cfg labels g,
        ∀ p ∈ analyze_scc sqrtA scc_cfg sev_cfg labels g,
        p.pattern_type = "smurfing_network" ∧
        p.pattern_hash = generate_pattern_hash p.pattern_type p.addresses_involved ∧
        p.pattern_id = generate_pattern_id "scc" p.pattern_hash ∧
        p.pattern_id ≠ generate_pattern_id p.pattern_type p.pattern_hash) ∧
    (∀ sqrtA cfg sev_cfg labels g,
        ∀ p ∈ threshold_detect sqrtA cfg sev_cfg labels g,
        p.pattern_type = "threshold_evasion" ∧
        p.addresses_involved = [p.primary_address] ∧
        p.pattern_id = generate_pattern_id p.pattern_type p.pattern_hash ∧
        p.pattern_hash = generate_pattern_hash "threshold_evasion"
          [p.primary_address, p.threshold_type, pyFloatStr p.threshold_value]) := by
  refine ⟨?_, ?_, ?_, ?_, ?_, ?_, ?_, ?_⟩
  · intro cfg g p hp
    obtain ⟨ht, hh, hid⟩ := cycle_detect_shape cfg g p hp
    exact ⟨by rw [ht]; exact hh, by rw [ht]; exact hid⟩
  · intro communities net_cfg sev_cfg labels g p hp
    obtain ⟨ht, hh, hid, -, -⟩ := detect_smurfing_shape communities net_cfg sev_cfg labels g p hp
    exact ⟨by rw [ht]; exact hh, by rw [ht]; exact hid⟩
  · intro prox_cfg risk_cfg sev_cfg labels g p hp
    obtain ⟨ht, hh, hid, -, -⟩ :=
      proximity_detect_shape prox_cfg risk_cfg sev_cfg labels g p hp
    exact ⟨by rw [ht]; exact hh, by rw [ht]; exact hid⟩
  · intro sqrtA path_cfg g p hp
    obtain ⟨ht, hh, hid⟩ := layering_detect_shape sqrtA path_cfg g p hp
    exact ⟨by rw [ht]; exact hh, by rw [ht]; exact hid⟩
  · intro motif_cfg g p hp
    obtain ⟨-, hh, hid⟩ := motif_detect_shape motif_cfg g p hp
    exact ⟨hh, hid⟩
  · intro cfg sev_cfg labels g
    unfold burst_detect
    split
    · rfl
    · simp only [analyze_temporal_bursts]
      exact foldl_ignore _ _
  · intro sqrtA scc_cfg sev_cfg labels g p hp
    obtain ⟨ht, hh, hid, -, -⟩ := analyze_scc_shape sqrtA scc_cfg sev_cfg labels g p hp
    refine ⟨ht, by rw [ht]; exact hh, hid, ?_⟩
    rw [hid, ht]
    exact scc_id_ne p.pattern_hash
  · intro sqrtA cfg sev_cfg labels g p hp
    obtain ⟨ht, ha, hh, hid⟩ := threshold_detect_shape sqrtA cfg sev_cfg labels g p hp
    exact ⟨ht, ha, by rw [ht]; exact hid, hh⟩

/-- C1 counterexample: on the two-node cycle `a ⇄ b` the network detector
emits one anomalous-SCC pattern whose type is `smurfing_network` but whose id
is `scc_`-prefixed, so `pattern_id ≠ pattern_type ++ "_" ++ pattern_hash`;
and on the one-edge graph `T → B` the threshold detector emits a pattern
whose hash is taken over `[T, reporting, "10.0"]`, not over the sorted
participant addresses `["T"]` — both refuting the claimed identities at
concrete inputs. -/
theorem c1_counterexample :
    analyze_scc sqrtQ sccCfgAB sevCfgHalf [] gTwoCycle = [sccPatternAB] ∧
    sccPatternAB.pattern_type = "smurfing_network" ∧
    sccPatternAB.pattern_id = generate_pattern_id "scc" sccPatternAB.pattern_hash ∧
    sccPatternAB.pattern_id ≠
      generate_pattern_id sccPatternAB.pattern_type sccPatternAB.pattern_hash ∧
    threshold_detect sqrtQ threshCfgT sevCfgHalf [] gThresh = [thresholdPatternT] ∧
    thresholdPatternT.pattern_hash ≠
      generate_pattern_hash thresholdPatternT.pattern_type
        thresholdPatternT.addresses_involved :=
  ⟨analyze_scc_on_gTwoCycle, rfl, rfl,
   by dsimp only [sccPatternAB]; exact scc_id_ne _,
   threshold_detect_on_gThresh, by decide⟩

/-- C1 witness: the amended theorem's SCC and threshold conjuncts applied to
the emitted patterns of the two fixtures. -/
theorem c1_witness :
    sccPatternAB ∈ analyze_scc sqrtQ sccCfgAB sevCfgHalf [] gTwoCycle ∧
    sccPatternAB.pattern_id ≠
      generate_pattern_id sccPatternAB.pattern_type sccPatternAB.pattern_hash ∧
    thresholdPatternT ∈ threshold_detect sqrtQ threshCfgT sevCfgHalf [] gThresh ∧
    thresholdPatternT.pattern_hash = generate_pattern_hash "threshold_evasion"
      [thresholdPatternT.primary_address, thresholdPatternT.threshold_type,
       pyFloatStr thresholdPatternT.threshold_value] := by
  have hmem1 : sccPatternAB ∈ analyze_scc sqrtQ sccCfgAB sevCfgHalf [] gTwoCycle := by
    rw [analyze_scc_on_gTwoCycle]
    exact List.mem_singleton.mpr rfl
  have hmem2 : thresholdPatternT ∈ threshold_detect sqrtQ threshCfgT sevCfgHalf [] gThresh := by
    rw [threshold_detect_on_gThresh]
    exact List.mem_singleton.mpr rfl
  obtain ⟨-, -, -, -, -, -, hscc, hthr⟩ := c1_pattern_identity_amended
  exact ⟨hmem1,
    (hscc sqrtQ sccCfgAB sevCfgHalf [] gTwoCycle sccPatternAB hmem1).2.2.2,
    hmem2,
    (hthr sqrtQ threshCfgT sevCfgHalf [] gThresh thresholdPatternT hmem2).2.2.2⟩

/-- C4 (amended): the network detector's two pattern families adjust their
base severity over all participants, but the proximity detector adjusts over
the suspect (the second involved address) alone — the risk-source participant
is excluded; in all three cases the result is clipped at 1. -/
theorem c4_severity_adjustment_amended :
    (∀ sqrtA scc_cfg sev_cfg labels g,
        ∀ p ∈ analyze_scc sqrtA scc_cfg sev_cfg labels g,
        p.severity_score = adjust_severity_for_trust sev_cfg labels
          (scc_base_score sqrtA scc_cfg g p.network_size) p.addresses_involved ∧
        p.severity_score ≤ 1) ∧
    (∀ communities net_cfg sev_cfg labels g,
        ∀ p ∈ detect_smurfing communities net_cfg sev_cfg labels g,
        p.severity_score = adjust_severity_for_trust sev_cfg labels
          (calculate_smurfing_severity net_cfg
            (g.nodes.filter (fun v => v ∈ p.addresses_involved)).length
            (subgraphEdges g p.addresses_involved)) p.addresses_involved ∧
        p.severity_score ≤ 1) ∧
    (∀ prox_cfg risk_cfg sev_cfg labels g,
        ∀ p ∈ proximity_detect prox_cfg risk_cfg sev_cfg labels g,
        p.severity_score = adjust_severity_for_trust sev_cfg labels
          (p.risk_propagation_score * prox_cfg.base_severity)
          [p.addresses_involved.getD 1 ""] ∧
        p.severity_score ≤ 1) := by
  refine ⟨?_, ?_, ?_⟩
  · intro sqrtA scc_cfg sev_cfg labels g p hp
    obtain ⟨-, -, -, hs, hle⟩ := analyze_scc_shape sqrtA scc_cfg sev_cfg labels g p hp
    exact ⟨hs, hle⟩
  · intro communities net_cfg sev_cfg labels g p hp
    obtain ⟨-, -, -, hs, hle⟩ :=
      detect_smurfing_shape communities net_cfg sev_cfg labels g p hp
    exact ⟨hs, hle⟩
  · intro prox_cfg risk_cfg sev_cfg labels g p hp
    obtain ⟨-, -, -, hs, hle⟩ :=
      proximity_detect_shape prox_cfg risk_cfg sev_cfg labels g p hp
    exact ⟨hs, hle⟩

/-- C4 counterexample: on the one-edge graph `RISK → A` with `RISK` labelled
a scam address, the proximity detector emits severity `1/4` — the adjustment
over the suspect `A` alone — while the claimed adjustment over all
participants `[RISK, A]` is amplified by the fraudulent fraction to `5/16`. -/
theorem c4_counterexample :
    proximity_detect proxCfg1 riskCfg0 sevCfgHalf labelsRisk gRiskA = [proxPatternRA] ∧
    proxPatternRA.severity_score = 1/4 ∧
    adjust_severity_for_trust sevCfgHalf labelsRisk
      (proxPatternRA.risk_propagation_score * proxCfg1.base_severity)
      proxPatternRA.addresses_involved = 5/16 ∧
    proxPatternRA.severity_score ≠ adjust_severity_for_trust sevCfgHalf labelsRisk
      (proxPatternRA.risk_propagation_score * proxCfg1.base_severity)
      proxPatternRA.addresses_involved := by
  have hall : adjust_severity_for_trust sevCfgHalf labelsRisk
      (proxPatternRA.risk_propagation_score * proxCfg1.base_severity)
      proxPatternRA.addresses_involved = 5/16 := by
    unfold adjust_severity_for_trust
    norm_num [proxPatternRA, proxCfg1, sevCfgHalf, List.countP, List.countP.go,
      show is_trusted_address labelsRisk "RISK" = false from by decide,
      show is_trusted_address labelsRisk "A" = false from by decide,
      show is_fraudulent_address labelsRisk "RISK" = true from by decide,
      show is_fraudulent_address labelsRisk "A" = false from by decide]
    decide
  refine ⟨proximity_detect_on_gRiskA, by norm_num [proxPatternRA], hall, ?_⟩
  rw [hall]
  norm_num [proxPatternRA]

/-- C4 witness: the amended theorem's proximity conjunct applied to the
emitted pattern of the `RISK → A` fixture. -/
theorem c4_witness :
    proxPatternRA ∈ proximity_detect proxCfg1 riskCfg0 sevCfgHalf labelsRisk gRiskA ∧
    proxPatternRA.severity_score = adjust_severity_for_trust sevCfgHalf labelsRisk
      (proxPatternRA.risk_propagation_score * proxCfg1.base_severity)
      [proxPatternRA.addresses_involved.getD 1 ""] ∧
    proxPatternRA.severity_score ≤ 1 := by
  have hmem : proxPatternRA ∈ proximity_detect proxCfg1 riskCfg0 sevCfgHalf labelsRisk gRiskA := by
    rw [proximity_detect_on_gRiskA]
    exact List.mem_singleton.mpr rfl
  obtain ⟨hs, hle⟩ := (c4_severity_adjustment_amended.2.2 proxCfg1 riskCfg0 sevCfgHalf
    labelsRisk gRiskA proxPatternRA hmem)
  exact ⟨hmem, hs, hle⟩

end Chainswarm
